import Mathlib

/-!
Shallow embedding of the botmerger library core (src/botmerger/) in Lean 4:
the immutable message/participant data model (models.py), the object-store
contract and its in-memory implementation (mergers.py), the dispatcher
(`BotMergerBase` in core.py) and the queue-backed response stream
(`BotResponses` in base.py), together with theorems checking the
specification's claims about them.

Modelling conventions:
* UUIDs are natural numbers; `uuid4()` freshness is modelled by a counter in
  the merger state (`nextUuid`).
* Python exceptions are values of `PyErr`; fallible operations return
  `Except PyErr`.
* Scheduling is the single-threaded cooperative model of the source: a
  triggered handler task runs to completion at the point it is spawned
  (none of its awaits can block: store accesses and `put_nowait` complete
  immediately), and consumers drain afterwards.  Consumer-side waiting on an
  empty queue is represented by the explicit outcome `blocked`.
-/

namespace BotmergerModel

abbrev UUID := Nat

/-- Primitive json-serializable values, as they appear in `extra_fields`
dictionaries (`Dict[str, Any]` restricted to flat primitives, which is all
the claims exercise). -/
inductive Prim where
  | pstr (s : String)
  | pint (n : Int)
  | pbool (b : Bool)
  | pnull
deriving DecidableEq, Repr

/-- The open-ended bag of extra key/value fields carried by every
`MergedObject` (`extra_fields` in base.py). -/
abbrev ExtraFields := List (String × Prim)

/-- Insert a key/value pair into a key-sorted list (insertion-sort step). -/
def insertByKey (p : String × Prim) : List (String × Prim) → List (String × Prim)
  | [] => [p]
  | q :: rest => if p.1 ≤ q.1 then p :: q :: rest else q :: insertByKey p rest

/-- Sort an association list by key, modelling the key ordering performed by
`json.dumps(..., sort_keys=True)`. -/
def sortByKey : List (String × Prim) → List (String × Prim)
  | [] => []
  | p :: rest => insertByKey p (sortByKey rest)

/-- Render one primitive the way `json.dumps` does. -/
def jsonDumpPrim : Prim → String
  | .pstr s => "\"" ++ s ++ "\""
  | .pint n => toString n
  | .pbool true => "true"
  | .pbool false => "false"
  | .pnull => "null"

/-- Render a sorted field list as a json object body. -/
def jsonDumpFields : List (String × Prim) → String
  | [] => ""
  | [(k, v)] => "\"" ++ k ++ "\": " ++ jsonDumpPrim v
  | (k, v) :: rest => "\"" ++ k ++ "\": " ++ jsonDumpPrim v ++ ", " ++ jsonDumpFields rest

/-- Model of `json.dumps(extra_fields, sort_keys=True)` (core.py line 148):
a stable serialization of the extra-fields mapping with keys sorted. -/
def json_dumps_sorted (fields : ExtraFields) : String :=
  "\x7b" ++ jsonDumpFields (sortByKey fields) ++ "\x7d"

/-- Chat participants (models.py): `MergedBot` (alias, optional description,
`no_cache` flag) and `MergedUser` (just a name).  The `merger` back-pointer
is implicit (there is a single merger in the model). -/
inductive MergedParticipant where
  | bot (uuid : UUID) (bot_alias : String) (name : String)
      (description : Option String) (no_cache : Bool) (extra_fields : ExtraFields)
  | user (uuid : UUID) (name : String) (extra_fields : ExtraFields)
deriving DecidableEq, Repr

def MergedParticipant.uuid : MergedParticipant → UUID
  | .bot u _ _ _ _ _ => u
  | .user u _ _ => u

def MergedParticipant.no_cache : MergedParticipant → Bool
  | .bot _ _ _ _ nc _ => nc
  | .user _ _ _ => false

def MergedParticipant.bot_alias : MergedParticipant → String
  | .bot _ a _ _ _ _ => a
  | .user _ _ _ => ""

def MergedParticipant.is_bot : MergedParticipant → Bool
  | .bot _ _ _ _ _ _ => true
  | .user _ _ _ => false

/-- Normalized message content: a string or a plain mapping (dataclasses and
pydantic models are converted to mappings at creation time). -/
inductive MessageContent where
  | str (s : String)
  | mapping (fields : List (String × Prim))
deriving DecidableEq, Repr

/-- Raw content as supplied by callers, before `_create_message` normalizes
it: a string, a dataclass instance, a pydantic model or an already-plain
mapping. -/
inductive RawContent where
  | str (s : String)
  | dataclassObj (fields : List (String × Prim))
  | pydanticObj (fields : List (String × Prim))
  | jsonObj (fields : List (String × Prim))
deriving DecidableEq, Repr

/-- Normalization performed by `_create_message` (core.py lines 397-401):
`dataclasses.asdict` for dataclasses, `.dict()` for pydantic models. -/
def normalizeContent : RawContent → MessageContent
  | .str s => .str s
  | .dataclassObj fs => .mapping fs
  | .pydanticObj fs => .mapping fs
  | .jsonObj fs => .mapping fs

/-- The fields shared by both message variants (models.py `MergedMessage`).
`invisible_to_bots` is the declared model field; the `hidden_from_history`
keyword that core.py passes is not a declared field and is dropped by
pydantic, so constructed messages always carry the default `false`. -/
structure MsgCore where
  uuid : UUID
  extra_fields : ExtraFields
  still_thinking : Bool
  parent_ctx_msg_uuid : Option UUID
  requesting_msg_uuid : Option UUID
  prev_msg_uuid : Option UUID
  invisible_to_bots : Bool
deriving DecidableEq, Repr

/-- Messages (models.py): `OriginalMessage` carries literal content,
`ForwardedMessage` delegates content to an `original_message` reference. -/
inductive MergedMessage where
  | original (core : MsgCore) (sender receiver : MergedParticipant)
      (content : MessageContent)
  | forwarded (core : MsgCore) (sender receiver : MergedParticipant)
      (original_message : MergedMessage)
deriving DecidableEq, Repr

def MergedMessage.core : MergedMessage → MsgCore
  | .original c _ _ _ => c
  | .forwarded c _ _ _ => c

def MergedMessage.uuid (m : MergedMessage) : UUID := m.core.uuid

def MergedMessage.extra_fields (m : MergedMessage) : ExtraFields := m.core.extra_fields

def MergedMessage.still_thinking (m : MergedMessage) : Bool := m.core.still_thinking

def MergedMessage.prev_msg_uuid (m : MergedMessage) : Option UUID := m.core.prev_msg_uuid

def MergedMessage.parent_ctx_msg_uuid (m : MergedMessage) : Option UUID :=
  m.core.parent_ctx_msg_uuid

def MergedMessage.sender : MergedMessage → MergedParticipant
  | .original _ s _ _ => s
  | .forwarded _ s _ _ => s

def MergedMessage.receiver : MergedMessage → MergedParticipant
  | .original _ _ r _ => r
  | .forwarded _ _ r _ => r

/-- The `original_message` attribute: an `OriginalMessage` is its own
original (models.py lines 199-202); a `ForwardedMessage` stores a direct
reference (models.py line 215). -/
def MergedMessage.original_message : MergedMessage → MergedMessage
  | .original c s r ct => .original c s r ct
  | .forwarded _ _ _ om => om

/-- Whether the message is a `ForwardedMessage` instance. -/
def MergedMessage.is_forwarded : MergedMessage → Bool
  | .original _ _ _ _ => false
  | .forwarded _ _ _ _ => true

/-- Model of `MergedMessage.get_ultimate_original_message` (models.py lines
183-191): follow `original_message` links while the current message is a
`ForwardedMessage`. -/
def MergedMessage.get_ultimate_original_message : MergedMessage → MergedMessage
  | .original c s r ct => .original c s r ct
  | .forwarded _ _ _ om => om.get_ultimate_original_message

/-- The polymorphic `content` property: literal for originals, delegated to
the original message for forwards (models.py lines 219-222). -/
def MergedMessage.content : MergedMessage → MessageContent
  | .original _ _ _ ct => ct
  | .forwarded _ _ _ om => om.content

/-- Python-level exceptions that the embedded code can raise (errors.py plus
the builtin exceptions the dispatcher raises).  `handlerFailure` stands for
an arbitrary application-level exception escaping a handler. -/
inductive PyErr where
  | valueError (msg : String)
  | typeError (msg : String)
  | keyError (msg : String)
  | botAliasTaken (msg : String)
  | botNotFound (msg : String)
  | runtimeError (msg : String)
  | handlerFailure (msg : String)
deriving DecidableEq, Repr

/-- Insertion-sort step for uuid lists. -/
def insertUuid (u : UUID) : List UUID → List UUID
  | [] => [u]
  | v :: rest => if u ≤ v then u :: v :: rest else v :: insertUuid u rest

/-- Model of Python `sorted` on a list of uuids, used by
`_generate_latest_message_in_chat_key` (core.py line 513). -/
def pySorted : List UUID → List UUID
  | [] => []
  | u :: rest => insertUuid u (pySorted rest)

/-- Object-store keys (`ObjectKey` in base.py): either a bare uuid or one of
the composite tuple keys generated by core.py.  The leading string literal of
each Python tuple (`"bot_by_alias"`, `"channel_by_type_and_id"`,
`"latest_message_in_chat"`, `"bot_response_cache"`) is represented by the
constructor; `channel_id` (typed `Any`) is modelled by its string form. -/
inductive ObjectKey where
  | uuidKey (u : UUID)
  | botByAlias (bot_alias : String)
  | channelByTypeAndId (channelType : String) (channelId : String)
  | latestMessageInChat (ctx : UUID) (participants : List UUID)
  | botResponseCache (bot_alias : String) (requests : List (UUID × String))
deriving DecidableEq, Repr

/-- Values held by the object stores: merged objects (messages,
participants), bare uuids (secondary indexes and latest-message pointers)
and `BotResponses` references (the response cache), the latter identified by
their stream id. -/
inductive StoreValue where
  | msgVal (m : MergedMessage)
  | participantVal (p : MergedParticipant)
  | uuidVal (u : UUID)
  | responsesVal (sid : Nat)
deriving DecidableEq, Repr

/-- Association-list lookup: the key/value maps of `InMemoryBotMerger` are
modelled as lists where the most recent binding for a key comes first. -/
def alistGet (store : List (ObjectKey × StoreValue)) (k : ObjectKey) : Option StoreValue :=
  match store with
  | [] => none
  | (k', v) :: rest => if k' = k then some v else alistGet rest k

/-- Items travelling through a `BotResponses` queue (base.py line 215): a
response message, an exception, another `BotResponses` (the cache-relay
case) or the `_END_OF_RESPONSES` sentinel. -/
inductive QueueItem where
  | msgItem (m : MergedMessage)
  | excItem (e : PyErr)
  | responsesItem (sid : Nat)
  | endOfResponses
deriving DecidableEq, Repr

/-- An `ErrorWrapper` (errors.py lines 17-27).  `wrapperId` models Python
object identity: each `ErrorWrapper(...)` construction produces a distinct
id, so two wrapper values are the same object exactly when their ids are
equal. -/
structure WrappedError where
  wrapperId : Nat
  error : PyErr
deriving DecidableEq, Repr

/-- Mutable state of one `BotResponses` instance (base.py lines 213-218).
`queue = none` models `_response_queue = None`; `cached_iter = some (sid, i)`
models `_cached_bot_response_iterator` positioned at index `i` over the
stream `sid`. -/
structure BotResponsesState where
  responses_so_far : List MergedMessage
  queue : Option (List QueueItem)
  error : Option WrappedError
  cached_iter : Option (Nat × Nat)
deriving DecidableEq, Repr

/-- A freshly constructed `BotResponses`. -/
def newBotResponses : BotResponsesState :=
  { responses_so_far := [], queue := some [], error := none, cached_iter := none }

/-- Model of the external single-turn handler contract: the handler is
opaque application code that emits a sequence of response messages onto its
turn's response stream (via the context's yield operations, whose essential
effect is `put_nowait` of each created message) and then either returns or
raises. -/
structure HandlerSpec where
  pushes : List MergedMessage
  raises : Option PyErr
deriving DecidableEq, Repr

/-- The whole mutable world of one `InMemoryBotMerger` plus the live
`BotResponses` instances.  `nextUuid`/`nextStreamId`/`nextWrapperId` are the
freshness counters standing for `uuid4()` and Python object allocation;
`handlerRuns` counts how many times `await handler(context)` was executed
(instrumentation for the at-most-once-execution claims). -/
structure MergerState where
  immutableStore : List (ObjectKey × StoreValue)
  mutableStore : List (ObjectKey × StoreValue)
  streams : List (Nat × BotResponsesState)
  nextUuid : UUID
  nextStreamId : Nat
  nextWrapperId : Nat
  handlerRuns : Nat
  defaultUser : Option MergedParticipant
  defaultMsgCtx : Option MergedMessage
  singleTurnHandlers : List (UUID × HandlerSpec)
deriving DecidableEq, Repr

/-- State of a freshly constructed `InMemoryBotMerger`. -/
def initState : MergerState :=
  { immutableStore := [], mutableStore := [], streams := [], nextUuid := 0,
    nextStreamId := 0, nextWrapperId := 0, handlerRuns := 0,
    defaultUser := none, defaultMsgCtx := none, singleTurnHandlers := [] }

/-- Lookup of a live `BotResponses` instance by stream id. -/
def streamsGet (streams : List (Nat × BotResponsesState)) (sid : Nat) :
    Option BotResponsesState :=
  match streams with
  | [] => none
  | (i, st) :: rest => if i = sid then some st else streamsGet rest sid

/-- Replace the state of stream `sid` (mutation of a live `BotResponses`). -/
def streamsSet (streams : List (Nat × BotResponsesState)) (sid : Nat)
    (st : BotResponsesState) : List (Nat × BotResponsesState) :=
  match streams with
  | [] => []
  | (i, old) :: rest =>
    if i = sid then (i, st) :: rest else (i, old) :: streamsSet rest sid st

/-- Apply a mutation to stream `sid` inside the merger state. -/
def modifyStream (s : MergerState) (sid : Nat)
    (f : BotResponsesState → BotResponsesState) : MergerState :=
  match streamsGet s.streams sid with
  | none => s
  | some st => { s with streams := streamsSet s.streams sid (f st) }

/-- Model of `queue.put_nowait` on a stream's response queue: appends to the
queue when it is live (during the modelled runs the producer always holds a
live queue). -/
def streamPut (s : MergerState) (sid : Nat) (item : QueueItem) : MergerState :=
  modifyStream s sid fun st =>
    { st with queue := (st.queue.map fun q => q ++ [item]) }

/-- `InMemoryBotMerger.set_mutable_state` (mergers.py lines 32-33): always
overwrites. -/
def set_mutable_state (s : MergerState) (k : ObjectKey) (v : StoreValue) : MergerState :=
  { s with mutableStore := (k, v) :: s.mutableStore }

/-- `InMemoryBotMerger.get_mutable_state` (mergers.py lines 35-36). -/
def get_mutable_state (s : MergerState) (k : ObjectKey) : Option StoreValue :=
  alistGet s.mutableStore k

/-- `InMemoryBotMerger._register_immutable_object` (mergers.py lines 38-42):
raises `ValueError` when the key is already present, otherwise inserts. -/
def register_immutable_object (s : MergerState) (k : ObjectKey) (v : StoreValue) :
    Except PyErr MergerState :=
  match alistGet s.immutableStore k with
  | some _ => .error (.valueError ("Object with key already exists."))
  | none => .ok { s with immutableStore := (k, v) :: s.immutableStore }

/-- `InMemoryBotMerger._get_immutable_object` (mergers.py lines 44-45). -/
def get_immutable_object (s : MergerState) (k : ObjectKey) : Option StoreValue :=
  alistGet s.immutableStore k

/-- Model stand-in for the fixed constant `DEFAULT_USER_UUID` (base.py line
43), kept far above the fresh-uuid counter's reachable range in the
modelled scenarios. -/
def DEFAULT_USER_UUID : UUID := 1000000001

/-- Model stand-in for the fixed constant `DEFAULT_MSG_CTX_UUID` (base.py
line 44). -/
def DEFAULT_MSG_CTX_UUID : UUID := 1000000002

/-- `BotMergerBase._generate_bot_key` (core.py lines 496-498). -/
def _generate_bot_key (bot_alias : String) : ObjectKey := .botByAlias bot_alias

/-- `BotMergerBase._generate_channel_key` (core.py lines 501-503). -/
def _generate_channel_key (channelType channelId : String) : ObjectKey :=
  .channelByTypeAndId channelType channelId

/-- `BotMergerBase._generate_latest_message_in_chat_key` (core.py lines
506-513): the participant uuids are sorted, so the key is direction-less. -/
def _generate_latest_message_in_chat_key (ctx : UUID) (participant_uuids : List UUID) :
    ObjectKey :=
  .latestMessageInChat ctx (pySorted participant_uuids)

/-- `BotMergerBase._get_correct_object` specialised to uuid values: returns
`none` for an absent key, the uuid for a uuid value, and raises `TypeError`
for a value of the wrong type (core.py lines 473-480, 516-522). -/
def get_correct_uuid (s : MergerState) (k : ObjectKey) : Except PyErr (Option UUID) :=
  match get_immutable_object s k with
  | none => .ok none
  | some (.uuidVal u) => .ok (some u)
  | some _ => .error (.typeError "wrong type of object by the key")

/-- `BotMergerBase._get_correct_object` specialised to `MergedMessage`. -/
def get_correct_message (s : MergerState) (k : ObjectKey) :
    Except PyErr (Option MergedMessage) :=
  match get_immutable_object s k with
  | none => .ok none
  | some (.msgVal m) => .ok (some m)
  | some _ => .error (.typeError "wrong type of object by the key")

/-- `BotMergerBase._get_bot` (core.py lines 491-493): lookup by the alias
key, asserting the value is a `MergedBot`. -/
def _get_bot (s : MergerState) (bot_alias : String) :
    Except PyErr (Option MergedParticipant) :=
  match get_immutable_object s (_generate_bot_key bot_alias) with
  | none => .ok none
  | some (.participantVal p) =>
    if p.is_bot then .ok (some p) else .error (.typeError "wrong type of object by the key")
  | some _ => .error (.typeError "wrong type of object by the key")

/-- `BotMergerBase.find_message` (core.py lines 462-463). -/
def find_message (s : MergerState) (u : UUID) : Except PyErr (Option MergedMessage) :=
  get_correct_message s (.uuidKey u)

/-- `BotMergerBase._register_merged_object` (core.py lines 482-484):
register an object in the immutable store under its uuid. -/
def _register_merged_object (s : MergerState) (u : UUID) (v : StoreValue) :
    Except PyErr MergerState :=
  register_immutable_object s (.uuidKey u) v

/-- `BotMergerBase._register_bot` (core.py lines 486-489): register under
the uuid and under the secondary alias index. -/
def _register_bot (s : MergerState) (b : MergedParticipant) : Except PyErr MergerState := do
  let s ← _register_merged_object s b.uuid (.participantVal b)
  register_immutable_object s (_generate_bot_key b.bot_alias) (.participantVal b)

/-- `BotMergerBase.create_user` (core.py lines 356-359).  The `uuid`
argument models the `uuid=...` keyword the default-user creation passes;
`none` means a fresh `uuid4()`. -/
def create_user (s : MergerState) (name : String) (uuid : Option UUID)
    (extra_fields : ExtraFields) : Except PyErr (MergedParticipant × MergerState) :=
  let (u, s) := match uuid with
    | some u => (u, s)
    | none => (s.nextUuid, { s with nextUuid := s.nextUuid + 1 })
  let user : MergedParticipant := .user u name extra_fields
  match _register_merged_object s u (.participantVal user) with
  | .error e => .error e
  | .ok s => .ok (user, s)

/-- `BotMergerBase._register_message` (core.py lines 421-429): register the
message under its uuid and, when it has a parent context, move the mutable
latest-message pointer for `(parent context, sender, receiver)` to it. -/
def _register_message (s : MergerState) (m : MergedMessage) : Except PyErr MergerState :=
  match _register_merged_object s m.uuid (.msgVal m) with
  | .error e => .error e
  | .ok s =>
    match m.parent_ctx_msg_uuid with
    | none => .ok s
    | some ctx =>
      .ok (set_mutable_state s
        (_generate_latest_message_in_chat_key ctx [m.sender.uuid, m.receiver.uuid])
        (.uuidVal m.uuid))

/-- The `content` argument of message construction (`MessageType` in
base.py): either an existing `MergedMessage` (the forwarding case) or plain
content. -/
inductive MessageType where
  | message (m : MergedMessage)
  | plain (c : RawContent)
deriving DecidableEq, Repr

/-- `BotMergerBase._create_message` (core.py lines 361-419).  When `content`
is a message, a `ForwardedMessage` holding it directly as `original_message`
is built (inheriting `still_thinking` when the argument is `none`);
otherwise an `OriginalMessage` is built and `still_thinking = none` is a
`ValueError`.  The `uuid`/`extra_fields` parameters model the corresponding
`**kwargs` passthrough of declared model fields; the `hidden_from_history`
argument is accepted but dropped, because the model's declared field is
`invisible_to_bots` and pydantic ignores undeclared keywords. -/
def _create_message (s : MergerState) (content : MessageType)
    (still_thinking : Option Bool) (sender receiver : MergedParticipant)
    (parent_ctx_msg_uuid requesting_msg_uuid prev_msg_uuid : Option UUID)
    (_hidden_from_history : Bool) (uuid : Option UUID) (extra_fields : ExtraFields) :
    Except PyErr (MergedMessage × MergerState) :=
  let (u, s) := match uuid with
    | some u => (u, s)
    | none => (s.nextUuid, { s with nextUuid := s.nextUuid + 1 })
  match content with
  | .message m =>
    let st := still_thinking.getD m.still_thinking
    let msg : MergedMessage := .forwarded
      ⟨u, extra_fields, st, parent_ctx_msg_uuid, requesting_msg_uuid, prev_msg_uuid, false⟩
      sender receiver m
    match _register_message s msg with
    | .error e => .error e
    | .ok s => .ok (msg, s)
  | .plain c =>
    match still_thinking with
    | none => .error (.valueError "still_thinking must not be None when creating a new message")
    | some st =>
      let msg : MergedMessage := .original
        ⟨u, extra_fields, st, parent_ctx_msg_uuid, requesting_msg_uuid, prev_msg_uuid, false⟩
        sender receiver (normalizeContent c)
      match _register_message s msg with
      | .error e => .error e
      | .ok s => .ok (msg, s)

/-- `BotMergerBase.get_default_user` (core.py lines 49-52): lazily create
and cache the well-known default user. -/
def get_default_user (s : MergerState) : Except PyErr (MergedParticipant × MergerState) :=
  match s.defaultUser with
  | some u => .ok (u, s)
  | none =>
    match create_user s "USER" (some DEFAULT_USER_UUID) [] with
    | .error e => .error e
    | .ok (u, s) => .ok (u, { s with defaultUser := some u })

/-- `BotMergerBase.get_default_msg_ctx` (core.py lines 54-67): lazily create
and cache the well-known default message context. -/
def get_default_msg_ctx (s : MergerState) : Except PyErr (MergedMessage × MergerState) :=
  match s.defaultMsgCtx with
  | some m => .ok (m, s)
  | none =>
    match get_default_user s with
    | .error e => .error e
    | .ok (du, s) =>
      match _create_message s (.plain (.str "DEFAULT MESSAGE CONTEXT")) (some false)
          du du none none none false (some DEFAULT_MSG_CTX_UUID) [] with
      | .error e => .error e
      | .ok (m, s) => .ok (m, { s with defaultMsgCtx := some m })

/-- `BotMergerBase.create_next_message` (core.py lines 431-460): resolve the
default sender and parent context, read the mutable latest-message pointer
for `(parent context, sender, receiver)` and build the message with it as
`prev_msg_uuid`. -/
def create_next_message (s : MergerState) (content : MessageType)
    (still_thinking : Option Bool) (sender : Option MergedParticipant)
    (receiver : MergedParticipant) (parent_ctx_msg_uuid : Option UUID)
    (requesting_msg_uuid : Option UUID) (hidden_from_history : Bool)
    (extra_fields : ExtraFields) : Except PyErr (MergedMessage × MergerState) :=
  let senderRes : Except PyErr (MergedParticipant × MergerState) :=
    match sender with
    | some p => .ok (p, s)
    | none => get_default_user s
  match senderRes with
  | .error e => .error e
  | .ok (sender, s) =>
    let ctxRes : Except PyErr (UUID × MergerState) :=
      match parent_ctx_msg_uuid with
      | some u => .ok (u, s)
      | none =>
        match get_default_msg_ctx s with
        | .error e => .error e
        | .ok (m, s) => .ok (m.uuid, s)
    match ctxRes with
    | .error e => .error e
    | .ok (ctx, s) =>
      let latest : Option UUID :=
        match get_mutable_state s
            (_generate_latest_message_in_chat_key ctx [sender.uuid, receiver.uuid]) with
        | some (.uuidVal u) => some u
        | _ => none
      _create_message s content still_thinking sender receiver (some ctx)
        requesting_msg_uuid latest hidden_from_history none extra_fields

/-- `BotMergerBase.register_local_single_turn_handler` (core.py lines
309-315): bind the handler to the bot's uuid in the private handler table
(the `handler.bot` attribute trick is inessential side information). -/
def register_local_single_turn_handler (s : MergerState) (b : MergedParticipant)
    (handler : HandlerSpec) : MergerState :=
  { s with singleTurnHandlers := (b.uuid, handler) :: s.singleTurnHandlers }

/-- `BotMergerBase.create_bot_async` (core.py lines 270-307), string-alias
branch, as the code at this revision stands: the `BotAliasTakenError` check
is commented out, and when the alias is already registered the code takes
the in-place-update hack path (`bot.name = name` and so on).  Since
`MergedObject.Config.allow_mutation = False` (base.py line 172), that first
assignment raises pydantic's `TypeError` for immutable models. -/
def create_bot_async (s : MergerState) (bot_alias : String) (name : Option String)
    (description : Option String) (no_cache : Bool) (single_turn : Option HandlerSpec)
    (extra_fields : ExtraFields) : Except PyErr (MergedParticipant × MergerState) :=
  let name := name.getD bot_alias
  match _get_bot s bot_alias with
  | .error e => .error e
  | .ok (some _) =>
    .error (.typeError "MergedBot is immutable and does not support item assignment")
  | .ok none =>
    let (u, s) := (s.nextUuid, { s with nextUuid := s.nextUuid + 1 })
    let bot : MergedParticipant := .bot u bot_alias name description no_cache extra_fields
    match _register_bot s bot with
    | .error e => .error e
    | .ok s =>
      match single_turn with
      | none => .ok (bot, s)
      | some h => .ok (bot, register_local_single_turn_handler s bot h)

/-- `BotMergerBase.create_bot` (core.py lines 254-268) just runs
`create_bot_async` on a throwaway event loop. -/
def create_bot (s : MergerState) (bot_alias : String) (name : Option String)
    (description : Option String) (no_cache : Bool) (single_turn : Option HandlerSpec)
    (extra_fields : ExtraFields) : Except PyErr (MergedParticipant × MergerState) :=
  create_bot_async s bot_alias name description no_cache single_turn extra_fields

/-- `BotMergerBase.find_bot` (core.py lines 317-321). -/
def find_bot (s : MergerState) (bot_alias : String) : Except PyErr MergedParticipant :=
  match _get_bot s bot_alias with
  | .error e => .error e
  | .ok none => .error (.botNotFound "bot with alias was not found")
  | .ok (some b) => .ok b

/-- An apostrophe character, for building the channel content string. -/
def apos : String := (Char.ofNat 39).toString

/-- `BotMergerBase.find_or_create_user_channel` (core.py lines 323-354):
look the channel up by the composite key; when absent, create an owning
user and a channel-root message tagged with the channel's type and id, and
index it under the composite key. -/
def find_or_create_user_channel (s : MergerState) (channelType channelId : String)
    (user_display_name : String) : Except PyErr (MergedMessage × MergerState) :=
  let key := _generate_channel_key channelType channelId
  match get_correct_uuid s key with
  | .error e => .error e
  | .ok channelMsgUuid =>
    let foundRes : Except PyErr (Option MergedMessage) :=
      match channelMsgUuid with
      | some u => find_message s u
      | none => .ok none
    match foundRes with
    | .error e => .error e
    | .ok (some m) => .ok (m, s)
    | .ok none =>
      match create_user s user_display_name none [] with
      | .error e => .error e
      | .ok (user, s) =>
        match _create_message s (.plain (.str (user_display_name ++ apos ++ "s channel")))
            (some false) user user none none none false none
            [("channel_type", .pstr channelType), ("channel_id", .pstr channelId)] with
        | .error e => .error e
        | .ok (channelMsg, s) =>
          match register_immutable_object s key (.uuidVal channelMsg.uuid) with
          | .error e => .error e
          | .ok s => .ok (channelMsg, s)

/-- Observable events of one `_run_single_turn_handler` execution, in
program order: the cache lookup (`get_mutable_state` at core.py line 171),
the cache store (`set_mutable_state` at line 180), the handler invocation
(`await handler(context)` at line 183) and every `put_nowait` onto the
turn's response queue. -/
inductive TraceEvent where
  | cacheLookup (key : ObjectKey)
  | cacheStore (key : ObjectKey)
  | handlerInvoked
  | queuePut (sid : Nat) (item : QueueItem)
deriving DecidableEq, Repr

/-- Push an item onto stream `sid`, recording the event. -/
def putTraced (s : MergerState) (tr : List TraceEvent) (sid : Nat) (item : QueueItem) :
    MergerState × List TraceEvent :=
  (streamPut s sid item, tr ++ [.queuePut sid item])

/-- Execute the handler against the turn's stream: push every response
message in order, then return `none` or the raised exception.  The
`handlerRuns` counter is incremented by the caller. -/
def runHandler (s : MergerState) (tr : List TraceEvent) (sid : Nat) (h : HandlerSpec) :
    MergerState × List TraceEvent × Option PyErr :=
  let s := h.pushes.foldl (fun acc m => streamPut acc sid (.msgItem m)) s
  let tr := tr ++ h.pushes.map (fun m => .queuePut sid (.msgItem m))
  (s, tr, h.raises)

/-- The `finally` clause of `_run_single_turn_handler` (core.py line 192):
always push the end-of-responses sentinel. -/
def runnerFinally (s : MergerState) (tr : List TraceEvent) (sid : Nat) :
    MergerState × List TraceEvent :=
  putTraced s tr sid .endOfResponses

/-- The `except` clause (core.py lines 188-190) followed by the `finally`
clause: push the caught exception, then the sentinel. -/
def runnerExcept (s : MergerState) (tr : List TraceEvent) (sid : Nat) (e : PyErr) :
    MergerState × List TraceEvent :=
  let (s, tr) := putTraced s tr sid (.excItem e)
  runnerFinally s tr sid

/-- `BotMergerBase._run_single_turn_handler` (core.py lines 114-192) for a
single `request` (the `requests` bundle and `BotResponses`-typed requests
are outside the modelled scenarios).  Program order: prepare the request via
`create_next_message`; extend the caching key with
`(request.original_message.uuid, json.dumps(request.extra_fields,
sort_keys=True))` unless the bot's `no_cache` is set; unless `no_cache`,
finalize the key and (unless `rewrite_cache`) look it up; on a miss, store
the turn's not-yet-populated stream under the key (when caching) and invoke
the handler; on a hit, put the cached `BotResponses` onto the queue; any
exception is pushed onto the queue, and the sentinel is always pushed
last.  The hit branch matches `responsesVal` because the store at line 180
is the only writer under `botResponseCache` keys, so a cached value is
always a `BotResponses` reference. -/
def _run_single_turn_handler (s : MergerState) (handler : HandlerSpec)
    (this_bot : MergedParticipant) (sid : Nat) (request : MessageType)
    (override_sender : Option MergedParticipant)
    (override_parent_ctx : Option MergedMessage) (rewrite_cache : Bool) :
    MergerState × List TraceEvent :=
  match create_next_message s request (some false) override_sender this_bot
      (override_parent_ctx.map MergedMessage.uuid) none false [] with
  | .error e => runnerExcept s [] sid e
  | .ok (req, s) =>
    let cachingKey : ObjectKey := .botResponseCache this_bot.bot_alias
      (if this_bot.no_cache then []
       else [(req.original_message.uuid, json_dumps_sorted req.extra_fields)])
    let (cached, tr) : Option StoreValue × List TraceEvent :=
      if this_bot.no_cache then (none, [])
      else if rewrite_cache then (none, [])
      else (get_mutable_state s cachingKey, [.cacheLookup cachingKey])
    match cached with
    | some (.responsesVal csid) =>
      let (s, tr) := putTraced s tr sid (.responsesItem csid)
      runnerFinally s tr sid
    | _ =>
      let (s, tr) :=
        if this_bot.no_cache then (s, tr)
        else (set_mutable_state s cachingKey (.responsesVal sid), tr ++ [.cacheStore cachingKey])
      let s := { s with handlerRuns := s.handlerRuns + 1 }
      let tr := tr ++ [.handlerInvoked]
      let (s, tr, raised) := runHandler s tr sid handler
      match raised with
      | some e => runnerExcept s tr sid e
      | none => runnerFinally s tr sid

/-- `BotMergerBase.trigger_bot` (core.py lines 69-111) called from top level
(no ambient single-turn context, so the override arguments are used as
given): resolve the handler from the private table (a missing handler is a
synchronous `KeyError`, not a stream error), allocate a fresh
`BotResponses`, and run the spawned `_run_single_turn_handler` task to
completion (its awaits never block, so running it at spawn time realizes
the cooperative schedule). -/
def trigger_bot (s : MergerState) (bot : MergedParticipant) (request : MessageType)
    (override_sender : Option MergedParticipant)
    (override_parent_ctx : Option MergedMessage) (rewrite_cache : Bool) :
    Except PyErr (Nat × MergerState × List TraceEvent) :=
  match s.singleTurnHandlers.lookup bot.uuid with
  | none => .error (.keyError "no single-turn handler registered for this bot uuid")
  | some handler =>
    let sid := s.nextStreamId
    let s := { s with
      streams := (sid, newBotResponses) :: s.streams,
      nextStreamId := s.nextStreamId + 1 }
    let (s, tr) := _run_single_turn_handler s handler bot sid request
      override_sender override_parent_ctx rewrite_cache
    .ok (sid, s, tr)

/-- Result of one `__anext__` on a `BotResponses` iterator: a yielded
message, `StopAsyncIteration`, a raised `ErrorWrapper`, or `blocked` (the
`await` on an empty live queue, which in the modelled schedules — producer
already finished — would never return; `blocked` is also returned when the
fuel bound on cache-relay nesting is exhausted). -/
inductive AnextResult where
  | yielded (m : MergedMessage)
  | stopIteration
  | raised (w : WrappedError)
  | blocked
deriving DecidableEq, Repr

/-- One step of a consumer's iterator over stream `sid` positioned at
`idx`: `BotResponses._Iterator.__anext__` (base.py lines 265-282) inlined
with `BotResponses._wait_for_next_response` (base.py lines 235-263).  The
iterator first replays `responses_so_far[idx]`; on `IndexError` it enters
`_wait_for_next_response`, which (in order) drains the cached relay
iterator when one is installed, re-raises a recorded error, stops on a
closed queue, and otherwise takes the next queue item: a plain message is
appended and yielded; a `BotResponses` item installs the relay iterator and
immediately pulls from it; an exception item is wrapped into a fresh
`ErrorWrapper`, recorded, and raised; the sentinel closes the queue and
stops.  `fuel` bounds the nesting depth of cache relays only. -/
def streamNext (fuel : Nat) (sid idx : Nat) (s : MergerState) :
    MergerState × Nat × AnextResult :=
  match streamsGet s.streams sid with
  | none => (s, idx, .blocked)
  | some st =>
    if h : idx < st.responses_so_far.length then
      (s, idx + 1, .yielded (st.responses_so_far.get ⟨idx, h⟩))
    else
      match fuel with
      | 0 => (s, idx, .blocked)
      | fuel + 1 =>
        match st.cached_iter with
        | some (csid, cidx) =>
          let (s, cidx', r) := streamNext fuel csid cidx s
          let s := modifyStream s sid fun cur => { cur with cached_iter := some (csid, cidx') }
          match r with
          | .yielded m =>
            (modifyStream s sid fun cur =>
              { cur with responses_so_far := cur.responses_so_far ++ [m] },
             idx + 1, .yielded m)
          | r => (s, idx, r)
        | none =>
          match st.error with
          | some w => (s, idx, .raised w)
          | none =>
            match st.queue with
            | none => (s, idx, .stopIteration)
            | some [] => (s, idx, .blocked)
            | some (item :: restQ) =>
              let s := modifyStream s sid fun cur => { cur with queue := some restQ }
              match item with
              | .msgItem m =>
                (modifyStream s sid fun cur =>
                  { cur with responses_so_far := cur.responses_so_far ++ [m] },
                 idx + 1, .yielded m)
              | .excItem e =>
                let w : WrappedError := ⟨s.nextWrapperId, e⟩
                let s := { s with nextWrapperId := s.nextWrapperId + 1 }
                let s := modifyStream s sid fun cur => { cur with error := some w }
                (s, idx, .raised w)
              | .endOfResponses =>
                (modifyStream s sid fun cur => { cur with queue := none }, idx, .stopIteration)
              | .responsesItem csid =>
                let s := modifyStream s sid fun cur => { cur with cached_iter := some (csid, 0) }
                let (s, cidx', r) := streamNext fuel csid 0 s
                let s := modifyStream s sid fun cur => { cur with cached_iter := some (csid, cidx') }
                match r with
                | .yielded m =>
                  (modifyStream s sid fun cur =>
                    { cur with responses_so_far := cur.responses_so_far ++ [m] },
                   idx + 1, .yielded m)
                | r => (s, idx, r)

/-- Outcome of iterating a stream to the end. -/
inductive DrainOutcome where
  | finished
  | errored (w : WrappedError)
  | stuck
deriving DecidableEq, Repr

/-- Iterate a fresh-or-resumed iterator until `StopAsyncIteration`, an
error, or blocking; `steps` bounds the number of iterations and `depth` the
relay nesting inside each step (`async for _ in self` in base.py lines
226-227). -/
def drainFrom (steps depth sid idx : Nat) (s : MergerState) : MergerState × DrainOutcome :=
  match steps with
  | 0 => (s, .stuck)
  | steps + 1 =>
    let (s, idx', r) := streamNext depth sid idx s
    match r with
    | .yielded _ => drainFrom steps depth sid idx' s
    | .stopIteration => (s, .finished)
    | .raised w => (s, .errored w)
    | .blocked => (s, .stuck)

/-- Result of `BotResponses.get_all_responses`. -/
inductive GetAllResult where
  | ok (responses : List MergedMessage)
  | raisedErr (w : WrappedError)
  | incomplete
deriving DecidableEq, Repr

/-- `BotResponses.get_all_responses` (base.py lines 223-228): iterate a
fresh iterator (starting at index 0) to completion, then return the
retained `responses_so_far`; an observed error is raised instead. -/
def get_all_responses (steps depth sid : Nat) (s : MergerState) :
    MergerState × GetAllResult :=
  let (s, out) := drainFrom steps depth sid 0 s
  match out with
  | .finished =>
    (s, .ok (((streamsGet s.streams sid).map BotResponsesState.responses_so_far).getD []))
  | .errored w => (s, .raisedErr w)
  | .stuck => (s, .incomplete)

/-! ### Basic lemmas about the stream table and state updates -/

/-- Pin a stream's state inside the merger state. -/
def withStream (s : MergerState) (sid : Nat) (st : BotResponsesState) : MergerState :=
  { s with streams := streamsSet s.streams sid st }

theorem streamsGet_streamsSet_same (l : List (Nat × BotResponsesState)) (sid : Nat)
    (st0 st : BotResponsesState) (h : streamsGet l sid = some st0) :
    streamsGet (streamsSet l sid st) sid = some st := by
  induction l with
  | nil => simp [streamsGet] at h
  | cons p rest ih =>
    by_cases hp : p.1 = sid
    · simp [streamsGet, streamsSet, hp]
    · simp [streamsGet, streamsSet, hp] at h ⊢
      exact ih h

theorem streamsGet_streamsSet_ne (l : List (Nat × BotResponsesState)) (sid sid' : Nat)
    (st : BotResponsesState) (h : sid' ≠ sid) :
    streamsGet (streamsSet l sid st) sid' = streamsGet l sid' := by
  induction l with
  | nil => simp [streamsSet, streamsGet]
  | cons p rest ih =>
    by_cases hp : p.1 = sid
    · have : p.1 ≠ sid' := by omega
      simp [streamsGet, streamsSet, hp, this, Ne.symm h]
    · by_cases hp' : p.1 = sid'
      · simp [streamsGet, streamsSet, hp, hp', h]
      · simp [streamsGet, streamsSet, hp, hp', ih]

theorem streamsSet_streamsSet (l : List (Nat × BotResponsesState)) (sid : Nat)
    (a b : BotResponsesState) :
    streamsSet (streamsSet l sid a) sid b = streamsSet l sid b := by
  induction l with
  | nil => simp [streamsSet]
  | cons p rest ih =>
    by_cases hp : p.1 = sid
    · simp [streamsSet, hp]
    · simp [streamsSet, hp, ih]

theorem streamsSet_self (l : List (Nat × BotResponsesState)) (sid : Nat)
    (st : BotResponsesState) (h : streamsGet l sid = some st) :
    streamsSet l sid st = l := by
  induction l with
  | nil => simp [streamsSet]
  | cons p rest ih =>
    by_cases hp : p.1 = sid
    · simp [streamsGet, hp] at h
      simp [streamsSet, hp, h]
      cases p
      simp_all
    · simp [streamsGet, hp] at h
      simp [streamsSet, hp, ih h]

theorem modifyStream_eq (s : MergerState) (sid : Nat) (st : BotResponsesState)
    (f : BotResponsesState → BotResponsesState) (h : streamsGet s.streams sid = some st) :
    modifyStream s sid f = withStream s sid (f st) := by
  simp [modifyStream, withStream, h]

theorem streamsGet_withStream_same (s : MergerState) (sid : Nat)
    (st0 st : BotResponsesState) (h : streamsGet s.streams sid = some st0) :
    streamsGet (withStream s sid st).streams sid = some st := by
  simp [withStream, streamsGet_streamsSet_same s.streams sid st0 st h]

theorem streamsGet_withStream_ne (s : MergerState) (sid sid' : Nat)
    (st : BotResponsesState) (h : sid' ≠ sid) :
    streamsGet (withStream s sid st).streams sid' = streamsGet s.streams sid' := by
  simp [withStream, streamsGet_streamsSet_ne s.streams sid sid' st h]

theorem withStream_withStream (s : MergerState) (sid : Nat) (a b : BotResponsesState) :
    withStream (withStream s sid a) sid b = withStream s sid b := by
  simp [withStream, streamsSet_streamsSet]

theorem withStream_self (s : MergerState) (sid : Nat) (st : BotResponsesState)
    (h : streamsGet s.streams sid = some st) : withStream s sid st = s := by
  simp [withStream, streamsSet_self s.streams sid st h]

theorem streamPut_eq (s : MergerState) (sid : Nat) (item : QueueItem)
    (rs : List MergedMessage) (q : List QueueItem) (er : Option WrappedError)
    (ci : Option (Nat × Nat)) (h : streamsGet s.streams sid = some ⟨rs, some q, er, ci⟩) :
    streamPut s sid item = withStream s sid ⟨rs, some (q ++ [item]), er, ci⟩ := by
  simp [streamPut, modifyStream_eq s sid ⟨rs, some q, er, ci⟩ _ h]

/-- Effect of the handler's sequence of `put_nowait` calls on its stream. -/
theorem foldl_streamPut (ms : List MergedMessage) (s : MergerState) (sid : Nat)
    (rs : List MergedMessage) (q : List QueueItem) (er : Option WrappedError)
    (ci : Option (Nat × Nat)) (h : streamsGet s.streams sid = some ⟨rs, some q, er, ci⟩) :
    ms.foldl (fun acc m => streamPut acc sid (.msgItem m)) s =
      withStream s sid ⟨rs, some (q ++ ms.map QueueItem.msgItem), er, ci⟩ := by
  induction ms generalizing s q with
  | nil => simp [withStream_self s sid _ h]
  | cons m rest ih =>
    have h1 : streamPut s sid (.msgItem m) = withStream s sid ⟨rs, some (q ++ [.msgItem m]), er, ci⟩ :=
      streamPut_eq s sid _ rs q er ci h
    have h2 : streamsGet (withStream s sid ⟨rs, some (q ++ [.msgItem m]), er, ci⟩).streams sid =
        some ⟨rs, some (q ++ [.msgItem m]), er, ci⟩ :=
      streamsGet_withStream_same s sid _ _ h
    simp only [List.foldl_cons, h1]
    rw [ih _ _ h2]
    simp [withStream_withStream]

/-! ### Step and drain lemmas for `BotResponses` iteration -/

theorem streamNext_replay (d sid idx : Nat) (s : MergerState) (st : BotResponsesState)
    (h : streamsGet s.streams sid = some st) (hidx : idx < st.responses_so_far.length) :
    streamNext d sid idx s = (s, idx + 1, .yielded (st.responses_so_far.get ⟨idx, hidx⟩)) := by
  unfold streamNext
  simp [h, hidx]

theorem streamNext_stepMsg (d sid : Nat) (s : MergerState) (rs : List MergedMessage)
    (m : MergedMessage) (q : List QueueItem)
    (h : streamsGet s.streams sid = some ⟨rs, some (.msgItem m :: q), none, none⟩) :
    streamNext (d + 1) sid rs.length s =
      (withStream s sid ⟨rs ++ [m], some q, none, none⟩, rs.length + 1, .yielded m) := by
  unfold streamNext
  rw [h]
  simp only [BotResponsesState.responses_so_far, lt_self_iff_false, dite_false]
  rw [modifyStream_eq s sid _ _ h]
  rw [modifyStream_eq _ sid ⟨rs, some q, none, none⟩ _ (streamsGet_withStream_same s sid _ _ h)]
  simp [withStream_withStream]

theorem streamNext_stepExc (d sid : Nat) (s : MergerState) (rs : List MergedMessage)
    (e : PyErr) (q : List QueueItem)
    (h : streamsGet s.streams sid = some ⟨rs, some (.excItem e :: q), none, none⟩) :
    streamNext (d + 1) sid rs.length s =
      ({ withStream s sid ⟨rs, some q, some ⟨s.nextWrapperId, e⟩, none⟩ with
          nextWrapperId := s.nextWrapperId + 1 }, rs.length,
        .raised ⟨s.nextWrapperId, e⟩) := by
  unfold streamNext
  simp only [h]
  rw [dif_neg (by omega)]
  simp [modifyStream, withStream, h, streamsGet_streamsSet_same _ _ _ _ h, streamsSet_streamsSet]

theorem streamNext_stepEnd (d sid : Nat) (s : MergerState) (rs : List MergedMessage)
    (q : List QueueItem)
    (h : streamsGet s.streams sid = some ⟨rs, some (.endOfResponses :: q), none, none⟩) :
    streamNext (d + 1) sid rs.length s =
      (withStream s sid ⟨rs, none, none, none⟩, rs.length, .stopIteration) := by
  unfold streamNext
  simp only [h]
  rw [dif_neg (by omega)]
  simp [modifyStream, withStream, h, streamsGet_streamsSet_same _ _ _ _ h, streamsSet_streamsSet]

theorem streamNext_closed (d sid idx : Nat) (s : MergerState) (rs : List MergedMessage)
    (h : streamsGet s.streams sid = some ⟨rs, none, none, none⟩)
    (hidx : rs.length ≤ idx) :
    streamNext (d + 1) sid idx s = (s, idx, .stopIteration) := by
  unfold streamNext
  simp only [h]
  rw [dif_neg (by simp; omega)]

theorem streamNext_sticky (d sid idx : Nat) (s : MergerState) (st : BotResponsesState)
    (w : WrappedError) (h : streamsGet s.streams sid = some st)
    (hci : st.cached_iter = none) (he : st.error = some w)
    (hidx : st.responses_so_far.length ≤ idx) :
    streamNext (d + 1) sid idx s = (s, idx, .raised w) := by
  unfold streamNext
  simp only [h]
  rw [dif_neg (by omega)]
  simp [hci, he]

theorem streamNext_cachedYield (d sid csid ci idx : Nat) (s : MergerState)
    (rs L : List MergedMessage) (q2 : Option (List QueueItem))
    (h2 : streamsGet s.streams sid = some ⟨rs, q2, none, some (csid, ci)⟩)
    (h1 : streamsGet s.streams csid = some ⟨L, none, none, none⟩)
    (hidx : rs.length ≤ idx) (hci : ci < L.length) :
    streamNext (d + 1) sid idx s =
      (withStream s sid ⟨rs ++ [L.get ⟨ci, hci⟩], q2, none, some (csid, ci + 1)⟩,
        idx + 1, .yielded (L.get ⟨ci, hci⟩)) := by
  unfold streamNext
  simp only [h2]
  rw [dif_neg (by omega)]
  rw [streamNext_replay d csid ci s ⟨L, none, none, none⟩ h1 hci]
  simp [modifyStream, withStream, h2, streamsGet_streamsSet_same _ _ _ _ h2, streamsSet_streamsSet]

theorem streamNext_cachedStop (d sid csid ci idx : Nat) (s : MergerState)
    (rs L : List MergedMessage) (q2 : Option (List QueueItem))
    (h2 : streamsGet s.streams sid = some ⟨rs, q2, none, some (csid, ci)⟩)
    (h1 : streamsGet s.streams csid = some ⟨L, none, none, none⟩)
    (hidx : rs.length ≤ idx) (hci : L.length ≤ ci) :
    streamNext (d + 1 + 1) sid idx s = (s, idx, .stopIteration) := by
  unfold streamNext
  simp only [h2]
  rw [dif_neg (by omega)]
  rw [streamNext_closed d csid ci s L h1 hci]
  rw [modifyStream_eq s sid _ _ h2]
  simp [withStream_self s sid _ h2]

theorem streamNext_relayYield (d sid csid : Nat) (s : MergerState)
    (rs L : List MergedMessage) (q : List QueueItem)
    (h2 : streamsGet s.streams sid = some ⟨rs, some (.responsesItem csid :: q), none, none⟩)
    (h1 : streamsGet s.streams csid = some ⟨L, none, none, none⟩)
    (hne : csid ≠ sid) (hL : 0 < L.length) :
    streamNext (d + 1) sid rs.length s =
      (withStream s sid ⟨rs ++ [L.get ⟨0, hL⟩], some q, none, some (csid, 1)⟩,
        rs.length + 1, .yielded (L.get ⟨0, hL⟩)) := by
  unfold streamNext
  simp only [h2]
  rw [dif_neg (by omega)]
  rw [modifyStream_eq s sid _ _ h2]
  rw [modifyStream_eq _ sid _ _ (streamsGet_withStream_same s sid _ _ h2)]
  rw [withStream_withStream]
  have h1' : streamsGet (withStream s sid ⟨rs, some q, none, some (csid, 0)⟩).streams csid =
      some ⟨L, none, none, none⟩ := by
    rw [streamsGet_withStream_ne s sid csid _ hne]; exact h1
  rw [streamNext_replay d csid 0 _ ⟨L, none, none, none⟩ h1' hL]
  simp [modifyStream, withStream, streamsGet_streamsSet_same _ _ _ _ h2, streamsSet_streamsSet]

theorem streamNext_relayStop (d sid csid : Nat) (s : MergerState)
    (rs L : List MergedMessage) (q : List QueueItem)
    (h2 : streamsGet s.streams sid = some ⟨rs, some (.responsesItem csid :: q), none, none⟩)
    (h1 : streamsGet s.streams csid = some ⟨L, none, none, none⟩)
    (hne : csid ≠ sid) (hL : L.length = 0) :
    streamNext (d + 1 + 1) sid rs.length s =
      (withStream s sid ⟨rs, some q, none, some (csid, 0)⟩, rs.length, .stopIteration) := by
  unfold streamNext
  simp only [h2]
  rw [dif_neg (by omega)]
  rw [modifyStream_eq s sid _ _ h2]
  rw [modifyStream_eq _ sid _ _ (streamsGet_withStream_same s sid _ _ h2)]
  rw [withStream_withStream]
  have h1' : streamsGet (withStream s sid ⟨rs, some q, none, some (csid, 0)⟩).streams csid =
      some ⟨L, none, none, none⟩ := by
    rw [streamsGet_withStream_ne s sid csid _ hne]; exact h1
  rw [streamNext_closed d csid 0 _ L h1' (by omega)]
  rw [modifyStream_eq _ sid _ _ (streamsGet_withStream_same s sid _ _ h2)]
  rw [withStream_withStream]

theorem drainFrom_replay (n : Nat) :
    ∀ (steps d sid idx : Nat) (s : MergerState) (st : BotResponsesState),
    streamsGet s.streams sid = some st → idx + n ≤ st.responses_so_far.length →
    drainFrom (n + steps) d sid idx s = drainFrom steps d sid (idx + n) s := by
  induction n with
  | zero => intro steps d sid idx s st h hn; simp
  | succ n ih =>
    intro steps d sid idx s st h hn
    have hidx : idx < st.responses_so_far.length := by omega
    have harith : n + 1 + steps = (n + steps) + 1 := by omega
    rw [harith]
    conv_lhs => unfold drainFrom
    rw [streamNext_replay d sid idx s st h hidx]
    show drainFrom (n + steps) d sid (idx + 1) s = drainFrom steps d sid (idx + (n + 1)) s
    rw [ih steps d sid (idx + 1) s st h (by omega)]
    congr 1
    omega

theorem drainFrom_consume (ms : List MergedMessage) :
    ∀ (steps d sid : Nat) (s : MergerState) (rs : List MergedMessage) (q : List QueueItem),
    streamsGet s.streams sid = some ⟨rs, some (ms.map QueueItem.msgItem ++ q), none, none⟩ →
    drainFrom (ms.length + steps) (d + 1) sid rs.length s =
      drainFrom steps (d + 1) sid (rs ++ ms).length
        (withStream s sid ⟨rs ++ ms, some q, none, none⟩) := by
  induction ms with
  | nil =>
    intro steps d sid s rs q h
    simp only [List.map_nil, List.nil_append] at h
    simp only [List.length_nil, Nat.zero_add, List.append_nil]
    rw [withStream_self s sid _ h]
  | cons m rest ih =>
    intro steps d sid s rs q h
    have hq : streamsGet s.streams sid =
        some ⟨rs, some (.msgItem m :: (rest.map QueueItem.msgItem ++ q)), none, none⟩ := by
      simpa using h
    have hlen : (m :: rest).length + steps = (rest.length + steps) + 1 := by
      simp only [List.length_cons]; omega
    rw [hlen]
    conv_lhs => unfold drainFrom
    rw [streamNext_stepMsg d sid s rs m (rest.map QueueItem.msgItem ++ q) hq]
    show drainFrom (rest.length + steps) (d + 1) sid (rs.length + 1)
        (withStream s sid ⟨rs ++ [m], some (rest.map QueueItem.msgItem ++ q), none, none⟩) = _
    have h2 : streamsGet (withStream s sid
        ⟨rs ++ [m], some (rest.map QueueItem.msgItem ++ q), none, none⟩).streams sid =
        some ⟨rs ++ [m], some (rest.map QueueItem.msgItem ++ q), none, none⟩ :=
      streamsGet_withStream_same s sid _ _ h
    have hlen2 : rs.length + 1 = (rs ++ [m]).length := by simp
    rw [hlen2]
    rw [ih steps d sid _ (rs ++ [m]) q h2]
    rw [withStream_withStream]
    congr 2 <;> simp

theorem drainFrom_end (steps d sid : Nat) (s : MergerState) (rs : List MergedMessage)
    (q : List QueueItem)
    (h : streamsGet s.streams sid = some ⟨rs, some (.endOfResponses :: q), none, none⟩) :
    drainFrom (steps + 1) (d + 1) sid rs.length s =
      (withStream s sid ⟨rs, none, none, none⟩, .finished) := by
  unfold drainFrom
  rw [streamNext_stepEnd d sid s rs q h]

theorem drainFrom_exc (steps d sid : Nat) (s : MergerState) (rs : List MergedMessage)
    (e : PyErr) (q : List QueueItem)
    (h : streamsGet s.streams sid = some ⟨rs, some (.excItem e :: q), none, none⟩) :
    drainFrom (steps + 1) (d + 1) sid rs.length s =
      ({ withStream s sid ⟨rs, some q, some ⟨s.nextWrapperId, e⟩, none⟩ with
          nextWrapperId := s.nextWrapperId + 1 }, .errored ⟨s.nextWrapperId, e⟩) := by
  unfold drainFrom
  rw [streamNext_stepExc d sid s rs e q h]

theorem get_all_exhausted (steps d sid : Nat) (s : MergerState) (rs : List MergedMessage)
    (h : streamsGet s.streams sid = some ⟨rs, none, none, none⟩) :
    get_all_responses (rs.length + (steps + 1)) (d + 1) sid s = (s, .ok rs) := by
  unfold get_all_responses
  rw [drainFrom_replay rs.length (steps + 1) (d + 1) sid 0 s _ h (by simp)]
  conv_lhs => unfold drainFrom
  rw [show (0 : Nat) + rs.length = rs.length by omega]
  rw [streamNext_closed d sid rs.length s rs h (le_refl _)]
  show (s, GetAllResult.ok _) = _
  simp [h]

theorem get_all_run (steps d sid : Nat) (s : MergerState) (ms : List MergedMessage)
    (h : streamsGet s.streams sid =
      some ⟨[], some (ms.map QueueItem.msgItem ++ [.endOfResponses]), none, none⟩) :
    get_all_responses (ms.length + (steps + 1)) (d + 1) sid s =
      (withStream s sid ⟨ms, none, none, none⟩, .ok ms) := by
  unfold get_all_responses
  rw [show (0 : Nat) = (([] : List MergedMessage)).length by simp]
  rw [drainFrom_consume ms (steps + 1) d sid s [] [.endOfResponses] h]
  have h2 : streamsGet (withStream s sid
      ⟨[] ++ ms, some [.endOfResponses], none, none⟩).streams sid =
      some ⟨[] ++ ms, some [.endOfResponses], none, none⟩ :=
    streamsGet_withStream_same s sid _ _ h
  rw [show ([] ++ ms : List MergedMessage).length = ([] ++ ms : List MergedMessage).length from rfl]
  rw [drainFrom_end steps d sid _ ([] ++ ms) [] h2]
  rw [withStream_withStream]
  simp only [List.nil_append]
  have h3 : streamsGet (withStream s sid ⟨ms, none, none, none⟩).streams sid =
      some ⟨ms, none, none, none⟩ := streamsGet_withStream_same s sid _ _ h
  simp [h3]

theorem get_all_excRun (steps d sid : Nat) (s : MergerState) (ms : List MergedMessage)
    (e : PyErr) (q : List QueueItem)
    (h : streamsGet s.streams sid =
      some ⟨[], some (ms.map QueueItem.msgItem ++ (.excItem e :: q)), none, none⟩) :
    get_all_responses (ms.length + (steps + 1)) (d + 1) sid s =
      ({ withStream s sid ⟨ms, some q, some ⟨s.nextWrapperId, e⟩, none⟩ with
          nextWrapperId := s.nextWrapperId + 1 }, .raisedErr ⟨s.nextWrapperId, e⟩) := by
  unfold get_all_responses
  rw [show (0 : Nat) = (([] : List MergedMessage)).length by simp]
  rw [drainFrom_consume ms (steps + 1) d sid s [] (.excItem e :: q) h]
  have h2 : streamsGet (withStream s sid
      ⟨[] ++ ms, some (.excItem e :: q), none, none⟩).streams sid =
      some ⟨[] ++ ms, some (.excItem e :: q), none, none⟩ :=
    streamsGet_withStream_same s sid _ _ h
  rw [drainFrom_exc steps d sid _ ([] ++ ms) e q h2]
  simp [withStream_withStream, withStream, streamsSet_streamsSet]

theorem drainFrom_relayLoop (k : Nat) :
    ∀ (j steps d sid csid : Nat) (s : MergerState) (L : List MergedMessage)
      (q2 : List QueueItem),
    j + k = L.length →
    streamsGet s.streams sid = some ⟨L.take j, some q2, none, some (csid, j)⟩ →
    streamsGet s.streams csid = some ⟨L, none, none, none⟩ → csid ≠ sid →
    drainFrom (k + (steps + 1)) (d + 1 + 1) sid j s =
      (withStream s sid ⟨L, some q2, none, some (csid, L.length)⟩, .finished) := by
  induction k with
  | zero =>
    intro j steps d sid csid s L q2 hj h2 h1 hne
    have hjL : j = L.length := by omega
    rw [hjL] at h2 ⊢
    rw [List.take_length] at h2
    conv_lhs => unfold drainFrom
    rw [streamNext_cachedStop d sid csid L.length L.length s L L (some q2) h2 h1
      (le_refl _) (le_refl _)]
    show (s, DrainOutcome.finished) = _
    rw [withStream_self s sid _ h2]
  | succ k ih =>
    intro j steps d sid csid s L q2 hj h2 h1 hne
    have hjL : j < L.length := by omega
    have hlen : (L.take j).length = j := by
      simp [List.length_take]; omega
    have harith : k + 1 + (steps + 1) = (k + (steps + 1)) + 1 := by omega
    rw [harith]
    conv_lhs => unfold drainFrom
    have hstep := streamNext_cachedYield (d + 1) sid csid j j s (L.take j) L (some q2)
      h2 h1 (by omega) hjL
    rw [hstep]
    show drainFrom (k + (steps + 1)) (d + 1 + 1) sid (j + 1)
        (withStream s sid ⟨L.take j ++ [L.get ⟨j, hjL⟩], some q2, none, some (csid, j + 1)⟩) = _
    have htake : L.take j ++ [L.get ⟨j, hjL⟩] = L.take (j + 1) := by
      simp [List.concat_eq_append, List.get_eq_getElem, List.take_concat_get]
    rw [htake]
    have h2' : streamsGet (withStream s sid
        ⟨L.take (j + 1), some q2, none, some (csid, j + 1)⟩).streams sid =
        some ⟨L.take (j + 1), some q2, none, some (csid, j + 1)⟩ :=
      streamsGet_withStream_same s sid _ _ h2
    have h1' : streamsGet (withStream s sid
        ⟨L.take (j + 1), some q2, none, some (csid, j + 1)⟩).streams csid =
        some ⟨L, none, none, none⟩ := by
      rw [streamsGet_withStream_ne s sid csid _ hne]; exact h1
    rw [ih (j + 1) steps d sid csid _ L q2 (by omega) h2' h1' hne]
    rw [withStream_withStream]

theorem drainFrom_relay_full (steps d sid csid : Nat) (s : MergerState)
    (L : List MergedMessage) (q2 : List QueueItem)
    (h2 : streamsGet s.streams sid =
      some ⟨[], some (.responsesItem csid :: q2), none, none⟩)
    (h1 : streamsGet s.streams csid = some ⟨L, none, none, none⟩) (hne : csid ≠ sid) :
    drainFrom (L.length + (steps + 1) + 1) (d + 1 + 1) sid 0 s =
      (withStream s sid ⟨L, some q2, none, some (csid, L.length)⟩, .finished) := by
  cases L with
  | nil =>
    conv_lhs => unfold drainFrom
    have hstep := streamNext_relayStop d sid csid s [] [] q2 h2 h1 hne (by simp)
    rw [show ((0 : Nat)) = (([] : List MergedMessage)).length by simp] at hstep ⊢
    rw [hstep]
  | cons m rest =>
    have harith : (m :: rest).length + (steps + 1) + 1 =
        (rest.length + (steps + 1 + 1)) + 1 := by simp only [List.length_cons]; omega
    rw [harith]
    conv_lhs => unfold drainFrom
    have hL : 0 < (m :: rest).length := by simp
    have hstep := streamNext_relayYield (d + 1) sid csid s [] (m :: rest) q2 h2 h1 hne hL
    rw [show ((0 : Nat)) = (([] : List MergedMessage)).length by simp]
    rw [hstep]
    show drainFrom (rest.length + (steps + 1 + 1)) (d + 1 + 1) sid
        (([] : List MergedMessage).length + 1)
        (withStream s sid ⟨[] ++ [(m :: rest).get ⟨0, hL⟩], some q2, none, some (csid, 1)⟩) = _
    have hq : ([] : List MergedMessage) ++ [(m :: rest).get ⟨0, hL⟩] = (m :: rest).take 1 := by
      simp [List.take]
    rw [hq]
    have h2' : streamsGet (withStream s sid
        ⟨(m :: rest).take 1, some q2, none, some (csid, 1)⟩).streams sid =
        some ⟨(m :: rest).take 1, some q2, none, some (csid, 1)⟩ :=
      streamsGet_withStream_same s sid _ _ h2
    have h1' : streamsGet (withStream s sid
        ⟨(m :: rest).take 1, some q2, none, some (csid, 1)⟩).streams csid =
        some ⟨m :: rest, none, none, none⟩ := by
      rw [streamsGet_withStream_ne s sid csid _ hne]; exact h1
    rw [show (([] : List MergedMessage)).length + 1 = 1 by simp]
    rw [drainFrom_relayLoop rest.length 1 (steps + 1) d sid csid _ (m :: rest) q2
      (by simp only [List.length_cons]; omega) h2' h1' hne]
    rw [withStream_withStream]

theorem get_all_relay (steps d sid csid : Nat) (s : MergerState)
    (L : List MergedMessage) (q2 : List QueueItem)
    (h2 : streamsGet s.streams sid =
      some ⟨[], some (.responsesItem csid :: q2), none, none⟩)
    (h1 : streamsGet s.streams csid = some ⟨L, none, none, none⟩) (hne : csid ≠ sid) :
    get_all_responses (L.length + (steps + 1) + 1) (d + 1 + 1) sid s =
      (withStream s sid ⟨L, some q2, none, some (csid, L.length)⟩, .ok L) := by
  unfold get_all_responses
  rw [drainFrom_relay_full steps d sid csid s L q2 h2 h1 hne]
  simp [streamsGet_withStream_same s sid _ _ h2]

/-! ### A concrete dispatch scenario with a symbolic handler and request -/

/-- A fixed registered user, acting as the override sender in the dispatch
scenarios (uuid 1). -/
def scenUser : MergedParticipant := .user 1 "alice" []

/-- A fixed registered cache-enabled bot with alias `"echo"` (uuid 0). -/
def scenBot : MergedParticipant := .bot 0 "echo" "echo" none false []

/-- A fixed channel-root message serving as the parent context (uuid 2). -/
def scenCtx : MergedMessage := .original ⟨2, [], false, none, none, none, false⟩
  scenUser scenUser (.str "channel")

/-- Merger state with `scenBot` registered (uuid and alias index), `scenUser`
and `scenCtx` registered, the default singletons already materialised and
the handler `h` bound to the bot: the state reached by creating the bot and
channel through the dispatcher api before the triggers under study. -/
def scenState (h : HandlerSpec) : MergerState :=
  { immutableStore := [(.uuidKey 0, .participantVal scenBot),
      (.botByAlias "echo", .participantVal scenBot),
      (.uuidKey 1, .participantVal scenUser), (.uuidKey 2, .msgVal scenCtx)],
    mutableStore := [], streams := [], nextUuid := 3, nextStreamId := 0,
    nextWrapperId := 0, handlerRuns := 0,
    defaultUser := some scenUser, defaultMsgCtx := some scenCtx,
    singleTurnHandlers := [(0, h)] }

/-- The request message the first trigger prepares: a fresh forward of the
trigger's request, addressed from the override sender to the bot inside the
override parent context. -/
def scenP1 (req : MergedMessage) : MergedMessage :=
  .forwarded ⟨3, [], false, some 2, none, none, false⟩ scenUser scenBot req

/-- The caching key both triggers compute for the same request message. -/
def scenKey (req : MergedMessage) : ObjectKey :=
  .botResponseCache "echo" [(req.uuid, json_dumps_sorted [])]

/-- Queue tail produced by the handler outcome: just the sentinel on normal
return, the exception then the sentinel on a raise. -/
def errTail : Option PyErr → List QueueItem
  | none => [.endOfResponses]
  | some e => [.excItem e, .endOfResponses]

/-- Trace tail corresponding to `errTail`. -/
def errTrace (sid : Nat) : Option PyErr → List TraceEvent
  | none => [.queuePut sid .endOfResponses]
  | some e => [.queuePut sid (.excItem e), .queuePut sid .endOfResponses]

/-- State after the first trigger: the prepared request is registered, the
latest-message pointer moved, the fresh stream 0 cached under the key and
filled by one handler run. -/
def scenS1 (ms : List MergedMessage) (err : Option PyErr) (req : MergedMessage) : MergerState :=
  { immutableStore := (.uuidKey 3, .msgVal (scenP1 req)) ::
      (scenState ⟨ms, err⟩).immutableStore,
    mutableStore := [(scenKey req, .responsesVal 0),
      (.latestMessageInChat 2 [0, 1], .uuidVal 3)],
    streams := [(0, ⟨[], some (ms.map QueueItem.msgItem ++ errTail err), none, none⟩)],
    nextUuid := 4, nextStreamId := 1, nextWrapperId := 0, handlerRuns := 1,
    defaultUser := some scenUser, defaultMsgCtx := some scenCtx,
    singleTurnHandlers := [(0, ⟨ms, err⟩)] }

/-- Intermediate state of the first trigger, just before the handler body
runs: request prepared and registered, stream cached, handler counted. -/
def scenMid (ms : List MergedMessage) (err : Option PyErr) (req : MergedMessage) : MergerState :=
  { scenS1 ms err req with streams := [(0, ⟨[], some [], none, none⟩)] }

/-- Trace of the first trigger: cache lookup, cache store, handler
invocation, then the queue activity. -/
def scenTr1 (ms : List MergedMessage) (err : Option PyErr) (req : MergedMessage) :
    List TraceEvent :=
  [.cacheLookup (scenKey req), .cacheStore (scenKey req), .handlerInvoked] ++
    ms.map (fun m => .queuePut 0 (.msgItem m)) ++ errTrace 0 err

theorem scen_trigger1 (ms : List MergedMessage) (err : Option PyErr) (req : MergedMessage) :
    trigger_bot (scenState ⟨ms, err⟩) scenBot (.message req) (some scenUser)
      (some scenCtx) false = .ok (0, scenS1 ms err req, scenTr1 ms err req) := by
  cases err with
  | none =>
    have hfold := foldl_streamPut ms (scenMid ms none req) 0 [] [] none none rfl
    unfold trigger_bot _run_single_turn_handler create_next_message _create_message
      _register_message runHandler runnerFinally putTraced
    simp [scenState, scenBot, scenUser, scenCtx, _register_merged_object,
      register_immutable_object, get_immutable_object, alistGet, get_mutable_state,
      set_mutable_state, _generate_latest_message_in_chat_key, pySorted, insertUuid,
      newBotResponses, List.lookup, MergedMessage.uuid, MergedMessage.core,
      MergedParticipant.uuid, MergedParticipant.no_cache, MergedParticipant.bot_alias,
      MergedMessage.extra_fields, MergedMessage.sender, MergedMessage.receiver,
      MergedMessage.parent_ctx_msg_uuid, MergedMessage.original_message,
      scenS1, scenMid, scenTr1, scenP1, scenKey, errTail, errTrace,
      streamsGet, streamsSet, withStream, streamPut, modifyStream] at hfold
    simp [scenState, scenBot, scenUser, scenCtx, _register_merged_object,
      register_immutable_object, get_immutable_object, alistGet, get_mutable_state,
      set_mutable_state, _generate_latest_message_in_chat_key, pySorted, insertUuid,
      newBotResponses, List.lookup, MergedMessage.uuid, MergedMessage.core,
      MergedParticipant.uuid, MergedParticipant.no_cache, MergedParticipant.bot_alias,
      MergedMessage.extra_fields, MergedMessage.sender, MergedMessage.receiver,
      MergedMessage.parent_ctx_msg_uuid, MergedMessage.original_message,
      scenS1, scenMid, scenTr1, scenP1, scenKey, errTail, errTrace,
      streamsGet, streamsSet, withStream, streamPut, modifyStream, hfold]
  | some e =>
    have hfold := foldl_streamPut ms (scenMid ms (some e) req) 0 [] [] none none rfl
    unfold trigger_bot _run_single_turn_handler create_next_message _create_message
      _register_message runHandler runnerExcept runnerFinally putTraced
    simp [scenState, scenBot, scenUser, scenCtx, _register_merged_object,
      register_immutable_object, get_immutable_object, alistGet, get_mutable_state,
      set_mutable_state, _generate_latest_message_in_chat_key, pySorted, insertUuid,
      newBotResponses, List.lookup, MergedMessage.uuid, MergedMessage.core,
      MergedParticipant.uuid, MergedParticipant.no_cache, MergedParticipant.bot_alias,
      MergedMessage.extra_fields, MergedMessage.sender, MergedMessage.receiver,
      MergedMessage.parent_ctx_msg_uuid, MergedMessage.original_message,
      scenS1, scenMid, scenTr1, scenP1, scenKey, errTail, errTrace,
      streamsGet, streamsSet, withStream, streamPut, modifyStream] at hfold
    simp [scenState, scenBot, scenUser, scenCtx, _register_merged_object,
      register_immutable_object, get_immutable_object, alistGet, get_mutable_state,
      set_mutable_state, _generate_latest_message_in_chat_key, pySorted, insertUuid,
      newBotResponses, List.lookup, MergedMessage.uuid, MergedMessage.core,
      MergedParticipant.uuid, MergedParticipant.no_cache, MergedParticipant.bot_alias,
      MergedMessage.extra_fields, MergedMessage.sender, MergedMessage.receiver,
      MergedMessage.parent_ctx_msg_uuid, MergedMessage.original_message,
      scenS1, scenMid, scenTr1, scenP1, scenKey, errTail, errTrace,
      streamsGet, streamsSet, withStream, streamPut, modifyStream, hfold]

/-- The request message the second trigger prepares: another fresh forward
of the same request, chaining after the first via the latest-message
pointer. -/
def scenP2 (req : MergedMessage) : MergedMessage :=
  .forwarded ⟨4, [], false, some 2, none, some 3, false⟩ scenUser scenBot req

/-- State after the second trigger of the same request: a new prepared
request and pointer update, and a fresh stream 1 that merely relays stream
0 from the cache; the handler did not run again. -/
def scenS2 (ms : List MergedMessage) (err : Option PyErr) (req : MergedMessage) : MergerState :=
  { immutableStore := (.uuidKey 4, .msgVal (scenP2 req)) ::
      (scenS1 ms err req).immutableStore,
    mutableStore := (.latestMessageInChat 2 [0, 1], .uuidVal 4) ::
      (scenS1 ms err req).mutableStore,
    streams := (1, ⟨[], some [.responsesItem 0, .endOfResponses], none, none⟩) ::
      (scenS1 ms err req).streams,
    nextUuid := 5, nextStreamId := 2, nextWrapperId := 0, handlerRuns := 1,
    defaultUser := some scenUser, defaultMsgCtx := some scenCtx,
    singleTurnHandlers := [(0, ⟨ms, err⟩)] }

/-- Trace of the second trigger: the cache lookup hits, so the only queue
activity is the relay reference and the sentinel — no handler invocation
and no cache store. -/
def scenTr2 (req : MergedMessage) : List TraceEvent :=
  [.cacheLookup (scenKey req), .queuePut 1 (.responsesItem 0),
    .queuePut 1 .endOfResponses]

theorem scen_trigger2 (ms : List MergedMessage) (err : Option PyErr) (req : MergedMessage) :
    trigger_bot (scenS1 ms err req) scenBot (.message req) (some scenUser)
      (some scenCtx) false = .ok (1, scenS2 ms err req, scenTr2 req) := by
  unfold trigger_bot _run_single_turn_handler create_next_message _create_message
    _register_message runnerFinally putTraced
  simp [scenState, scenBot, scenUser, scenCtx, _register_merged_object,
    register_immutable_object, get_immutable_object, alistGet, get_mutable_state,
    set_mutable_state, _generate_latest_message_in_chat_key, pySorted, insertUuid,
    newBotResponses, List.lookup, MergedMessage.uuid, MergedMessage.core,
    MergedParticipant.uuid, MergedParticipant.no_cache, MergedParticipant.bot_alias,
    MergedMessage.extra_fields, MergedMessage.sender, MergedMessage.receiver,
    MergedMessage.parent_ctx_msg_uuid, MergedMessage.original_message,
    scenS1, scenS2, scenTr1, scenTr2, scenP1, scenP2, scenKey, errTail, errTrace,
    streamsGet, streamsSet, withStream, streamPut, modifyStream]

/-! ### Claim theorems -/

/-- A registered user standing for a message author in the counterexample
constructions. -/
def cexU : MergedParticipant := .user 100 "u" []

/-- The original message at the end of the counterexample forward chain. -/
def cexO : MergedMessage := .original ⟨0, [], false, none, none, none, false⟩
  cexU cexU (.str "orig")

/-- First-level forward of `cexO`. -/
def cexF1 : MergedMessage := .forwarded ⟨1, [], false, none, none, none, false⟩
  cexU cexU cexO

/-- Second-level forward: the dispatcher wraps `cexF1` itself. -/
def cexF2 : MergedMessage := .forwarded ⟨2, [], false, none, none, none, false⟩
  cexU cexU cexF1

/-- C1 (counterexample): forwarding a message that is itself a
`ForwardedMessage` yields a message whose `original_message` is that
forwarded message — not the ultimate `OriginalMessage` the claim requires:
`_create_message` stores the content reference unflattened. -/
theorem forward_chain_not_flattened_cex :
    Except.map (fun p => p.1)
      ((_create_message initState (.plain (.str "orig")) (some false) cexU cexU
          none none none false none []).bind
        (fun r1 => (_create_message r1.2 (.message r1.1) none cexU cexU
            none none none false none []).bind
          (fun r2 => _create_message r2.2 (.message r2.1) none cexU cexU
            none none none false none []))) = .ok cexF2 ∧
    cexF2.original_message.is_forwarded = true ∧
    cexF2.original_message ≠ cexF2.get_ultimate_original_message := by
  refine ⟨rfl, rfl, by decide⟩

/-- C1 (amended): creating a message through the dispatcher with a message
as content builds a `ForwardedMessage` whose `original_message` field is the
content message itself, one level deep; the ultimate original is only
recovered lazily through `get_ultimate_original_message`, which agrees
between the new forward and its source. -/
theorem forwarded_original_message_direct (s : MergerState) (m : MergedMessage)
    (st : Option Bool) (snd rcv : MergedParticipant) (pc rq pv : Option UUID)
    (hff : alistGet s.immutableStore (.uuidKey s.nextUuid) = none) :
    Except.map (fun p => (p.1.original_message, p.1.is_forwarded,
        p.1.get_ultimate_original_message))
      (_create_message s (.message m) st snd rcv pc rq pv false none []) =
      .ok (m, true, m.get_ultimate_original_message) := by
  cases pc <;>
    simp [_create_message, _register_message, _register_merged_object,
      register_immutable_object, hff, Except.map, MergedMessage.uuid,
      MergedMessage.core, MergedMessage.parent_ctx_msg_uuid,
      MergedMessage.original_message, MergedMessage.is_forwarded,
      MergedMessage.get_ultimate_original_message]

/-- Witness for the C1 theorem at a concrete input. -/
theorem forwarded_original_message_direct_witness :
    Except.map (fun p => (p.1.original_message, p.1.is_forwarded,
        p.1.get_ultimate_original_message))
      (_create_message initState (.message cexF1) none cexU cexU none none none
        false none []) =
      .ok (cexF1, true, cexF1.get_ultimate_original_message) :=
  forwarded_original_message_direct initState cexF1 none cexU cexU
    none none none (by decide)

/-- The caching key the amended C2 claim attributes to a prepared request. -/
def requestCacheKey (bot : MergedParticipant) (p : MergedMessage) : ObjectKey :=
  .botResponseCache bot.bot_alias
    [(p.original_message.uuid, json_dumps_sorted p.extra_fields)]

/-- C2 (amended): with caching enabled, the runner's cache lookup — and any
cache store it performs — uses the key built from the bot's alias and the
pair (uuid of the prepared request's direct `original_message`, which
coincides with the ultimate original only when forwards are not chained,
and the sorted-key json serialization of the request's extra fields); with
`no_cache` set, no cache lookup and no cache store occur at all. -/
theorem caching_key_uses_direct_original (s s1 : MergerState) (hspec : HandlerSpec)
    (bot : MergedParticipant) (sid : Nat) (request : MessageType)
    (os : Option MergedParticipant) (pc : Option MergedMessage) (p : MergedMessage)
    (hprep : create_next_message s request (some false) os bot
      (pc.map MergedMessage.uuid) none false [] = .ok (p, s1)) :
    (bot.no_cache = false →
      ((_run_single_turn_handler s hspec bot sid request os pc false).2.head? =
          some (.cacheLookup (requestCacheKey bot p)) ∧
        ∀ k, TraceEvent.cacheStore k ∈
            (_run_single_turn_handler s hspec bot sid request os pc false).2 →
          k = requestCacheKey bot p)) ∧
    (bot.no_cache = true →
      ∀ k, TraceEvent.cacheLookup k ∉
          (_run_single_turn_handler s hspec bot sid request os pc false).2 ∧
        TraceEvent.cacheStore k ∉
          (_run_single_turn_handler s hspec bot sid request os pc false).2) := by
  unfold _run_single_turn_handler
  rw [hprep]
  constructor
  · intro hnc
    cases hc : get_mutable_state s1 (requestCacheKey bot p) with
    | none =>
      simp only [requestCacheKey] at hc
      cases hr : hspec.raises with
      | none =>
        simp [hnc, hc, hr, runHandler, runnerFinally, runnerExcept, putTraced,
          requestCacheKey, List.mem_append, List.mem_map]
      | some e =>
        simp [hnc, hc, hr, runHandler, runnerFinally, runnerExcept, putTraced,
          requestCacheKey, List.mem_append, List.mem_map]
    | some v =>
      simp only [requestCacheKey] at hc
      cases v with
      | responsesVal csid =>
        simp [hnc, hc, runnerFinally, putTraced, requestCacheKey]
      | msgVal m =>
        cases hr : hspec.raises <;>
          simp [hnc, hc, hr, runHandler, runnerFinally, runnerExcept, putTraced,
            requestCacheKey, List.mem_append, List.mem_map]
      | participantVal pp =>
        cases hr : hspec.raises <;>
          simp [hnc, hc, hr, runHandler, runnerFinally, runnerExcept, putTraced,
            requestCacheKey, List.mem_append, List.mem_map]
      | uuidVal u =>
        cases hr : hspec.raises <;>
          simp [hnc, hc, hr, runHandler, runnerFinally, runnerExcept, putTraced,
            requestCacheKey, List.mem_append, List.mem_map]
  · intro hnc
    intro k
    cases hr : hspec.raises <;>
      simp [hnc, hr, runHandler, runnerFinally, runnerExcept, putTraced,
        List.mem_append, List.mem_map]

/-- An original message addressed to the scenario bot (a previously created
message being re-sent as a trigger request). -/
def cexOrig : MergedMessage := .original ⟨50, [], false, none, none, none, false⟩
  scenUser scenBot (.str "hello")

/-- A forward of `cexOrig`, used as the trigger request in the C2
counterexample. -/
def cexFwd : MergedMessage := .forwarded ⟨60, [], false, none, none, none, false⟩
  scenUser scenBot cexOrig

/-- C2 (counterexample): triggering the bot with a request that is already a
`ForwardedMessage` builds the cache key from the forward's own uuid (60),
not from the uuid of the ultimate original message (50) as the claim
states. -/
theorem caching_key_ultimate_uuid_cex :
    Except.map (fun r => r.2.2.head?)
      (trigger_bot (scenState ⟨[], none⟩) scenBot (.message cexFwd) (some scenUser)
        (some scenCtx) false) =
      .ok (some (.cacheLookup (.botResponseCache "echo" [(60, json_dumps_sorted [])]))) ∧
    (scenP1 cexFwd).original_message.uuid = 60 ∧
    (scenP1 cexFwd).get_ultimate_original_message.uuid = 50 ∧
    (60 : UUID) ≠ 50 := by
  exact ⟨rfl, rfl, rfl, by decide⟩

/-- The merger state right after preparing `cexOrig` as a request (the
witness instantiation of the preparation hypothesis). -/
def scenPrep : MergerState := { scenState ⟨[], none⟩ with
  immutableStore := (.uuidKey 3, .msgVal (scenP1 cexOrig)) ::
    (scenState ⟨[], none⟩).immutableStore,
  mutableStore := [(.latestMessageInChat 2 [0, 1], .uuidVal 3)],
  nextUuid := 4 }

/-- Witness for the C2 theorem at a concrete input. -/
theorem caching_key_uses_direct_original_witness :
    (scenBot.no_cache = false →
      ((_run_single_turn_handler (scenState ⟨[], none⟩) ⟨[], none⟩ scenBot 0
          (.message cexOrig) (some scenUser) (some scenCtx) false).2.head? =
          some (.cacheLookup (requestCacheKey scenBot (scenP1 cexOrig))) ∧
        ∀ k, TraceEvent.cacheStore k ∈
            (_run_single_turn_handler (scenState ⟨[], none⟩) ⟨[], none⟩ scenBot 0
              (.message cexOrig) (some scenUser) (some scenCtx) false).2 →
          k = requestCacheKey scenBot (scenP1 cexOrig))) ∧
    (scenBot.no_cache = true →
      ∀ k, TraceEvent.cacheLookup k ∉
          (_run_single_turn_handler (scenState ⟨[], none⟩) ⟨[], none⟩ scenBot 0
            (.message cexOrig) (some scenUser) (some scenCtx) false).2 ∧
        TraceEvent.cacheStore k ∉
          (_run_single_turn_handler (scenState ⟨[], none⟩) ⟨[], none⟩ scenBot 0
            (.message cexOrig) (some scenUser) (some scenCtx) false).2) :=
  caching_key_uses_direct_original (scenState ⟨[], none⟩) scenPrep ⟨[], none⟩ scenBot 0
    (.message cexOrig) (some scenUser) (some scenCtx) (scenP1 cexOrig) (by rfl)

/-- C3 (code divergence): `create_bot_async` succeeds for a fresh alias, but
calling it again with the same alias does not raise `BotAliasTakenError` —
the alias-taken check is commented out in this revision, and the
in-place-update hack path fails with pydantic's immutability `TypeError`
instead (and would otherwise silently update the registered bot). -/
theorem create_bot_alias_taken_not_raised :
    Except.isOk (create_bot_async initState "test_bot" none none false none []) = true ∧
    (create_bot_async initState "test_bot" none none false none []).bind
        (fun r => create_bot_async r.2 "test_bot" none none false none []) =
      .error (.typeError "MergedBot is immutable and does not support item assignment") := by
  exact ⟨rfl, rfl⟩

/-- C9: registering a value in the in-memory immutable store under an
already-present key raises `ValueError` and leaves the store unchanged (the
previously registered value is still returned by gets), while registration
under a fresh key succeeds and makes the value retrievable. -/
theorem register_immutable_duplicate_raises (s : MergerState) (k : ObjectKey)
    (v v' : StoreValue) :
    (alistGet s.immutableStore k = some v →
      register_immutable_object s k v' =
        .error (.valueError "Object with key already exists.") ∧
      get_immutable_object s k = some v) ∧
    (alistGet s.immutableStore k = none →
      register_immutable_object s k v' =
        .ok { s with immutableStore := (k, v') :: s.immutableStore } ∧
      get_immutable_object { s with immutableStore := (k, v') :: s.immutableStore } k =
        some v') := by
  constructor
  · intro h
    exact ⟨by simp [register_immutable_object, h], h⟩
  · intro h
    exact ⟨by simp [register_immutable_object, h], by simp [get_immutable_object, alistGet]⟩

/-- Witness for the C9 theorem at concrete inputs: both the duplicate-key
branch and the fresh-key branch. -/
theorem register_immutable_duplicate_raises_witness :
    (register_immutable_object
        { initState with immutableStore := [(.uuidKey 5, .uuidVal 7)] }
        (.uuidKey 5) (.uuidVal 9) =
      .error (.valueError "Object with key already exists.") ∧
      get_immutable_object { initState with immutableStore := [(.uuidKey 5, .uuidVal 7)] }
        (.uuidKey 5) = some (.uuidVal 7)) ∧
    (register_immutable_object initState (.uuidKey 5) (.uuidVal 9) =
      .ok { initState with immutableStore := [(.uuidKey 5, .uuidVal 9)] } ∧
      get_immutable_object { initState with immutableStore := [(.uuidKey 5, .uuidVal 9)] }
        (.uuidKey 5) = some (.uuidVal 9)) :=
  ⟨(register_immutable_duplicate_raises
      { initState with immutableStore := [(.uuidKey 5, .uuidVal 7)] }
      (.uuidKey 5) (.uuidVal 7) (.uuidVal 9)).1 (by decide),
   (register_immutable_duplicate_raises initState (.uuidKey 5) (.uuidVal 7)
      (.uuidVal 9)).2 (by decide)⟩

/-- C4: in a cache-miss execution the not-yet-populated stream is stored
under the cache key strictly before the handler is invoked (trace events 1
and 2, the invocation being event 3); a second trigger with the same
request message hits the cache instead of invoking the handler again
(`handlerRuns` stays 1), and draining both response streams yields the same
message sequence. -/
theorem cache_store_before_handler_single_execution
    (ms : List MergedMessage) (req : MergedMessage) :
    (scenTr1 ms none req).take 3 =
      [.cacheLookup (scenKey req), .cacheStore (scenKey req), .handlerInvoked] ∧
    trigger_bot (scenState ⟨ms, none⟩) scenBot (.message req) (some scenUser)
      (some scenCtx) false = .ok (0, scenS1 ms none req, scenTr1 ms none req) ∧
    trigger_bot (scenS1 ms none req) scenBot (.message req) (some scenUser)
      (some scenCtx) false = .ok (1, scenS2 ms none req, scenTr2 req) ∧
    TraceEvent.handlerInvoked ∉ scenTr2 req ∧
    (scenS2 ms none req).handlerRuns = 1 ∧
    ∃ s3 s4,
      get_all_responses (ms.length + 2) 2 0 (scenS2 ms none req) = (s3, .ok ms) ∧
      get_all_responses (ms.length + 2) 2 1 s3 = (s4, .ok ms) := by
  refine ⟨rfl, scen_trigger1 ms none req, scen_trigger2 ms none req,
    by simp [scenTr2], rfl, ?_⟩
  have h0 : streamsGet (scenS2 ms none req).streams 0 =
      some ⟨[], some (ms.map QueueItem.msgItem ++ [.endOfResponses]), none, none⟩ := by
    simp [scenS2, scenS1, streamsGet, errTail]
  have hrun := get_all_run 1 1 0 (scenS2 ms none req) ms h0
  refine ⟨withStream (scenS2 ms none req) 0 ⟨ms, none, none, none⟩,
    withStream (withStream (scenS2 ms none req) 0 ⟨ms, none, none, none⟩) 1
      ⟨ms, some [.endOfResponses], none, some (0, ms.length)⟩, hrun, ?_⟩
  have h2 : streamsGet
      (withStream (scenS2 ms none req) 0 ⟨ms, none, none, none⟩).streams 1 =
      some ⟨[], some (.responsesItem 0 :: [.endOfResponses]), none, none⟩ := by
    rw [streamsGet_withStream_ne _ _ _ _ (by decide)]
    simp [scenS2, streamsGet]
  have h1 : streamsGet
      (withStream (scenS2 ms none req) 0 ⟨ms, none, none, none⟩).streams 0 =
      some ⟨ms, none, none, none⟩ := streamsGet_withStream_same _ _ _ _ h0
  exact get_all_relay 0 0 1 0 _ ms [.endOfResponses] h2 h1 (by decide)

/-- C6: for every handler invocation, returning or raising, the sentinel is
the last item both of the trace and of the queue, so consumption terminates:
`get_all_responses` either returns the pushed messages or raises the
wrapped error — it never blocks. -/
theorem sentinel_always_pushed_iteration_terminates
    (ms : List MergedMessage) (err : Option PyErr) (req : MergedMessage) :
    (scenTr1 ms err req).getLast? = some (.queuePut 0 .endOfResponses) ∧
    (∃ q, streamsGet (scenS1 ms err req).streams 0 = some ⟨[], some q, none, none⟩ ∧
      q.getLast? = some .endOfResponses) ∧
    (get_all_responses (ms.length + 2) 2 0 (scenS1 ms err req)).2 =
      (match err with
       | none => .ok ms
       | some e => .raisedErr ⟨0, e⟩) := by
  refine ⟨?_, ⟨ms.map QueueItem.msgItem ++ errTail err,
    by simp [scenS1, streamsGet], ?_⟩, ?_⟩
  · cases err with
    | none =>
      show (scenTr1 ms none req).getLast? = _
      rw [scenTr1, errTrace]
      rw [show [TraceEvent.cacheLookup (scenKey req), .cacheStore (scenKey req),
          .handlerInvoked] ++ ms.map (fun m => TraceEvent.queuePut 0 (.msgItem m)) ++
          [TraceEvent.queuePut 0 .endOfResponses] =
        ([TraceEvent.cacheLookup (scenKey req), .cacheStore (scenKey req),
          .handlerInvoked] ++ ms.map (fun m => TraceEvent.queuePut 0 (.msgItem m))) ++
          [TraceEvent.queuePut 0 .endOfResponses] by simp]
      exact List.getLast?_concat _
    | some e =>
      show (scenTr1 ms (some e) req).getLast? = _
      rw [scenTr1, errTrace]
      rw [show [TraceEvent.cacheLookup (scenKey req), .cacheStore (scenKey req),
          .handlerInvoked] ++ ms.map (fun m => TraceEvent.queuePut 0 (.msgItem m)) ++
          [TraceEvent.queuePut 0 (.excItem e), TraceEvent.queuePut 0 .endOfResponses] =
        ([TraceEvent.cacheLookup (scenKey req), .cacheStore (scenKey req),
          .handlerInvoked] ++ ms.map (fun m => TraceEvent.queuePut 0 (.msgItem m)) ++
          [TraceEvent.queuePut 0 (.excItem e)]) ++
          [TraceEvent.queuePut 0 .endOfResponses] by simp]
      exact List.getLast?_concat _
  · cases err with
    | none =>
      rw [errTail]
      exact List.getLast?_concat _
    | some e =>
      rw [errTail]
      rw [show ms.map QueueItem.msgItem ++ [QueueItem.excItem e, .endOfResponses] =
        (ms.map QueueItem.msgItem ++ [QueueItem.excItem e]) ++ [QueueItem.endOfResponses]
        by simp]
      exact List.getLast?_concat _
  · cases err with
    | none =>
      have h0 : streamsGet (scenS1 ms none req).streams 0 =
          some ⟨[], some (ms.map QueueItem.msgItem ++ [.endOfResponses]), none, none⟩ := by
        simp [scenS1, streamsGet, errTail]
      rw [get_all_run 1 1 0 _ ms h0]
    | some e =>
      have h0 : streamsGet (scenS1 ms (some e) req).streams 0 =
          some ⟨[], some (ms.map QueueItem.msgItem ++ (.excItem e :: [.endOfResponses])),
            none, none⟩ := by
        simp [scenS1, streamsGet, errTail]
      rw [get_all_excRun 1 1 0 _ ms e [.endOfResponses] h0]
      rfl

/-- C5 (amended): an exception escaping the handler never propagates to the
caller of `trigger_bot` (the trigger still returns its stream normally);
the consumer that reaches the exception observes it as a wrapped error; and
once the wrapper is recorded on the stream, every iteration attempt that
goes past the retained `responses_so_far` — by that or any other consumer —
raises the identical wrapper object, while a fresh consumer first replays
the retained responses. -/
theorem handler_error_wrapped_and_sticky :
    (∀ (ms : List MergedMessage) (e : PyErr) (req : MergedMessage),
      trigger_bot (scenState ⟨ms, some e⟩) scenBot (.message req) (some scenUser)
          (some scenCtx) false =
        .ok (0, scenS1 ms (some e) req, scenTr1 ms (some e) req) ∧
      (get_all_responses (ms.length + 2) 2 0 (scenS1 ms (some e) req)).2 =
        .raisedErr ⟨0, e⟩) ∧
    (∀ (d sid idx : Nat) (s : MergerState) (st : BotResponsesState) (w : WrappedError),
      streamsGet s.streams sid = some st → st.cached_iter = none →
      st.error = some w → st.responses_so_far.length ≤ idx →
      streamNext (d + 1) sid idx s = (s, idx, .raised w)) := by
  constructor
  · intro ms e req
    refine ⟨scen_trigger1 ms (some e) req, ?_⟩
    have h0 : streamsGet (scenS1 ms (some e) req).streams 0 =
        some ⟨[], some (ms.map QueueItem.msgItem ++ (.excItem e :: [.endOfResponses])),
          none, none⟩ := by
      simp [scenS1, streamsGet, errTail]
    rw [get_all_excRun 1 1 0 _ ms e [.endOfResponses] h0]
    rfl
  · exact fun d sid idx s st w h hci he hidx =>
      streamNext_sticky d sid idx s st w h hci he hidx

/-- A response message the erroring handler yields before raising. -/
def cexResp : MergedMessage := .original ⟨70, [], false, none, none, none, false⟩
  scenBot scenUser (.str "r1")

/-- C5 (counterexample): after one consumer has fully observed the wrapped
error, a fresh consumer's first iteration attempt on the same stream does
not raise — it replays the response retained before the error. -/
theorem fresh_consumer_replays_before_error_cex :
    (get_all_responses 3 2 0
        (scenS1 [cexResp] (some (.handlerFailure "x")) cexOrig)).2 =
      .raisedErr ⟨0, .handlerFailure "x"⟩ ∧
    (streamNext 2 0 0
        (get_all_responses 3 2 0
          (scenS1 [cexResp] (some (.handlerFailure "x")) cexOrig)).1).2.2 =
      .yielded cexResp ∧
    AnextResult.yielded cexResp ≠ .raised ⟨0, .handlerFailure "x"⟩ := by
  exact ⟨rfl, rfl, by decide⟩

/-- A stream state carrying a recorded wrapper, for the C5 witness. -/
def c5St : BotResponsesState := ⟨[cexOrig], none, some ⟨3, .handlerFailure "y"⟩, none⟩

/-- A merger state holding `c5St` as stream 0, for the C5 witness. -/
def c5W : MergerState := { initState with streams := [(0, c5St)] }

/-- Witness for the C5 theorem at concrete inputs. -/
theorem handler_error_wrapped_and_sticky_witness :
    (trigger_bot (scenState ⟨[], some (.handlerFailure "x")⟩) scenBot
        (.message cexOrig) (some scenUser) (some scenCtx) false =
      .ok (0, scenS1 [] (some (.handlerFailure "x")) cexOrig,
        scenTr1 [] (some (.handlerFailure "x")) cexOrig) ∧
      (get_all_responses 2 2 0 (scenS1 [] (some (.handlerFailure "x")) cexOrig)).2 =
        .raisedErr ⟨0, .handlerFailure "x"⟩) ∧
    streamNext 3 0 5 c5W = (c5W, 5, .raised ⟨3, .handlerFailure "y"⟩) := by
  constructor
  · exact handler_error_wrapped_and_sticky.1 [] (.handlerFailure "x") cexOrig
  · exact handler_error_wrapped_and_sticky.2 2 0 5 c5W c5St ⟨3, .handlerFailure "y"⟩
      rfl rfl rfl (by decide)

/-- C7: draining a freshly produced stream returns its messages and leaves
it exhausted; a second `get_all_responses` on the drained stream replays
the retained `responses_so_far` from index 0, returns the same list, leaves
the state untouched, and does not change the handler-invocation count. -/
theorem get_all_responses_idempotent (s : MergerState) (sid : Nat)
    (ms : List MergedMessage)
    (h : streamsGet s.streams sid =
      some ⟨[], some (ms.map QueueItem.msgItem ++ [.endOfResponses]), none, none⟩) :
    get_all_responses (ms.length + 2) 2 sid s =
      (withStream s sid ⟨ms, none, none, none⟩, .ok ms) ∧
    get_all_responses (ms.length + 2) 2 sid (withStream s sid ⟨ms, none, none, none⟩) =
      (withStream s sid ⟨ms, none, none, none⟩, .ok ms) ∧
    (withStream s sid ⟨ms, none, none, none⟩).handlerRuns = s.handlerRuns := by
  refine ⟨get_all_run 1 1 sid s ms h, ?_, rfl⟩
  exact get_all_exhausted 1 1 sid _ ms (streamsGet_withStream_same s sid _ _ h)

/-- A merger state holding a freshly produced stream, for the C7 witness. -/
def c7W : MergerState := { initState with
  streams := [(0, ⟨[], some [.msgItem cexResp, .endOfResponses], none, none⟩)] }

/-- Witness for the C7 theorem at a concrete input: both drains return the
same singleton list. -/
theorem get_all_responses_idempotent_witness :
    (get_all_responses ([cexResp].length + 2) 2 0 c7W).2 = .ok [cexResp] ∧
    (get_all_responses ([cexResp].length + 2) 2 0
        (withStream c7W 0 ⟨[cexResp], none, none, none⟩)).2 =
      .ok [cexResp] := by
  have h := get_all_responses_idempotent c7W 0 [cexResp] rfl
  exact ⟨by rw [h.1], by rw [h.2.1]⟩

/-- C8: `find_or_create_user_channel` is idempotent in the channel
type/id pair — a repeat call returns the same channel message and the same
state (so no new user or message is created) even when the display name
differs — while a call with a different pair creates and returns a distinct
message owned by a freshly created distinct user. -/
theorem find_or_create_user_channel_idempotent (s : MergerState)
    (t id name1 name2 t2 id2 name3 : String)
    (h1 : alistGet s.immutableStore (.channelByTypeAndId t id) = none)
    (h2 : ∀ u, s.nextUuid ≤ u → alistGet s.immutableStore (.uuidKey u) = none)
    (h3 : alistGet s.immutableStore (.channelByTypeAndId t2 id2) = none)
    (h4 : ¬(t = t2 ∧ id = id2)) :
    ∃ m1 s1,
      find_or_create_user_channel s t id name1 = .ok (m1, s1) ∧
      find_or_create_user_channel s1 t id name2 = .ok (m1, s1) ∧
      Except.map (fun r => (r.1.uuid, r.1.sender.uuid))
        (find_or_create_user_channel s1 t2 id2 name3) =
        .ok (s.nextUuid + 3, s.nextUuid + 2) ∧
      m1.uuid = s.nextUuid + 1 ∧ m1.sender.uuid = s.nextUuid ∧
      s.nextUuid + 3 ≠ s.nextUuid + 1 ∧ s.nextUuid + 2 ≠ s.nextUuid := by
  have hn0 := h2 s.nextUuid (le_refl _)
  have hn1 := h2 (s.nextUuid + 1) (by simp)
  have hn2 := h2 (s.nextUuid + 2) (by simp)
  have hn3 := h2 (s.nextUuid + 3) (by simp)
  refine ⟨.original ⟨s.nextUuid + 1,
      [("channel_type", .pstr t), ("channel_id", .pstr id)], false, none, none, none,
      false⟩ (.user s.nextUuid name1 []) (.user s.nextUuid name1 [])
      (.str (name1 ++ apos ++ "s channel")),
    { s with
      immutableStore := (.channelByTypeAndId t id, .uuidVal (s.nextUuid + 1)) ::
        (.uuidKey (s.nextUuid + 1), .msgVal (.original ⟨s.nextUuid + 1,
          [("channel_type", .pstr t), ("channel_id", .pstr id)], false, none, none,
          none, false⟩ (.user s.nextUuid name1 []) (.user s.nextUuid name1 [])
          (.str (name1 ++ apos ++ "s channel")))) ::
        (.uuidKey s.nextUuid, .participantVal (.user s.nextUuid name1 [])) ::
        s.immutableStore,
      nextUuid := s.nextUuid + 2 },
    ?_, ?_, ?_, rfl, rfl, by simp, by simp⟩
  · unfold find_or_create_user_channel get_correct_uuid find_message get_correct_message
      create_user _create_message _register_message _register_merged_object
      register_immutable_object get_immutable_object _generate_channel_key
    simp [h1, hn0, hn1, alistGet, normalizeContent, MergedMessage.uuid,
      MergedMessage.core, MergedMessage.parent_ctx_msg_uuid]
  · unfold find_or_create_user_channel get_correct_uuid find_message get_correct_message
      _generate_channel_key
    simp [get_immutable_object, alistGet]
  · unfold find_or_create_user_channel get_correct_uuid find_message get_correct_message
      create_user _create_message _register_message _register_merged_object
      register_immutable_object get_immutable_object _generate_channel_key
    simp [alistGet, h3, h4, hn2, hn3, normalizeContent,
      show ¬(s.nextUuid + 1 = s.nextUuid + 2) by simp,
      show ¬(s.nextUuid = s.nextUuid + 2) by simp,
      show ¬(s.nextUuid + 1 = s.nextUuid + 3) by simp,
      show ¬(s.nextUuid = s.nextUuid + 3) by simp,
      show ¬(s.nextUuid + 2 = s.nextUuid + 3) by simp,
      MergedMessage.uuid, MergedMessage.core, MergedMessage.sender,
      MergedParticipant.uuid, MergedMessage.parent_ctx_msg_uuid, Except.map]

/-- Witness for the C8 theorem at concrete inputs. -/
theorem find_or_create_user_channel_idempotent_witness :
    ∃ m1 s1,
      find_or_create_user_channel initState "discord" "123" "Alice" = .ok (m1, s1) ∧
      find_or_create_user_channel s1 "discord" "123" "Bob" = .ok (m1, s1) ∧
      Except.map (fun r => (r.1.uuid, r.1.sender.uuid))
        (find_or_create_user_channel s1 "discord" "456" "Carol") =
        .ok (initState.nextUuid + 3, initState.nextUuid + 2) ∧
      m1.uuid = initState.nextUuid + 1 ∧ m1.sender.uuid = initState.nextUuid ∧
      initState.nextUuid + 3 ≠ initState.nextUuid + 1 ∧
      initState.nextUuid + 2 ≠ initState.nextUuid :=
  find_or_create_user_channel_idempotent initState "discord" "123" "Alice" "Bob"
    "discord" "456" "Carol" rfl (fun _ _ => rfl) rfl (by simp)

/-- The mutable latest-message pointer currently recorded for the (context,
participant pair) chat, as `create_next_message` reads it. -/
def latestPointer (s : MergerState) (ctx : UUID) (sender receiver : MergedParticipant) :
    Option UUID :=
  match get_mutable_state s
      (_generate_latest_message_in_chat_key ctx [sender.uuid, receiver.uuid]) with
  | some (.uuidVal u) => some u
  | _ => none

/-- A→B message creation step in the interleaved-chain scenario. -/
def chainStepAB (s : MergerState) : Except PyErr (MergedMessage × MergerState) :=
  create_next_message s (.plain (.str "m")) (some false) (some scenUser) scenBot
    (some 2) none false []

/-- B→A message creation step in the interleaved-chain scenario. -/
def chainStepBA (s : MergerState) : Except PyErr (MergedMessage × MergerState) :=
  create_next_message s (.plain (.str "m")) (some false) (some scenBot) scenUser
    (some 2) none false []

/-- C10: the latest-message key sorts the two participant uuids, so both
message directions of a pair share one pointer: the key is symmetric in the
participants; every `create_next_message` uses the shared pointer as
`prev_msg_uuid` and then moves it to the new message; and an interleaved
A→B, B→A, A→B sequence forms a single chain in creation order. -/
theorem latest_pointer_shared_between_directions :
    (∀ (ctx a b : UUID), _generate_latest_message_in_chat_key ctx [a, b] =
      _generate_latest_message_in_chat_key ctx [b, a]) ∧
    (∀ (s : MergerState) (content : MessageType) (stv : Bool)
        (sender receiver : MergedParticipant) (ctx : UUID) (rq : Option UUID),
      alistGet s.immutableStore (.uuidKey s.nextUuid) = none →
      (Except.map (fun p => p.1.prev_msg_uuid)
          (create_next_message s content (some stv) (some sender) receiver (some ctx)
            rq false []) = .ok (latestPointer s ctx sender receiver) ∧
        ∀ m s', create_next_message s content (some stv) (some sender) receiver
            (some ctx) rq false [] = .ok (m, s') →
          get_mutable_state s' (_generate_latest_message_in_chat_key ctx
            [sender.uuid, receiver.uuid]) = some (.uuidVal m.uuid))) ∧
    (Except.map (fun r => (r.1.uuid, r.1.prev_msg_uuid))
        (chainStepAB (scenState ⟨[], none⟩)) = .ok (3, none) ∧
      Except.map (fun r => (r.1.uuid, r.1.prev_msg_uuid))
        ((chainStepAB (scenState ⟨[], none⟩)).bind (fun r => chainStepBA r.2)) =
        .ok (4, some 3) ∧
      Except.map (fun r => (r.1.uuid, r.1.prev_msg_uuid))
        (((chainStepAB (scenState ⟨[], none⟩)).bind (fun r => chainStepBA r.2)).bind
          (fun r => chainStepAB r.2)) = .ok (5, some 4)) := by
  refine ⟨?_, ?_, rfl, rfl, rfl⟩
  · intro ctx a b
    simp only [_generate_latest_message_in_chat_key, pySorted, insertUuid]
    by_cases hab : a ≤ b
    · by_cases hba : b ≤ a
      · have : a = b := Nat.le_antisymm hab hba
        subst this
        simp
      · simp [hab, hba]
    · by_cases hba : b ≤ a
      · simp [hab, hba]
      · exact absurd (Nat.le_of_lt (Nat.lt_of_not_le hab)) hba
  · intro s content stv sender receiver ctx rq hff
    cases content with
    | message mm =>
      have ceq : create_next_message s (.message mm) (some stv) (some sender) receiver
          (some ctx) rq false [] =
          .ok (.forwarded ⟨s.nextUuid, [], stv, some ctx, rq,
              latestPointer s ctx sender receiver, false⟩ sender receiver mm,
            { s with
              nextUuid := s.nextUuid + 1
              immutableStore := (.uuidKey s.nextUuid, .msgVal (.forwarded
                ⟨s.nextUuid, [], stv, some ctx, rq,
                  latestPointer s ctx sender receiver, false⟩ sender receiver mm)) ::
                s.immutableStore
              mutableStore := (_generate_latest_message_in_chat_key ctx
                  [sender.uuid, receiver.uuid], .uuidVal s.nextUuid) ::
                s.mutableStore }) := by
        unfold create_next_message _create_message _register_message
          _register_merged_object register_immutable_object
          set_mutable_state latestPointer get_mutable_state
        simp [hff, MergedMessage.uuid, MergedMessage.core, MergedMessage.sender,
          MergedMessage.receiver, MergedMessage.parent_ctx_msg_uuid]
      refine ⟨by rw [ceq]; rfl, ?_⟩
      intro m s' heq
      rw [ceq] at heq
      rw [Except.ok.injEq, Prod.mk.injEq] at heq
      obtain ⟨hm, hs⟩ := heq
      subst hm
      subst hs
      simp [get_mutable_state, alistGet, MergedMessage.uuid, MergedMessage.core]
    | plain c =>
      have ceq : create_next_message s (.plain c) (some stv) (some sender) receiver
          (some ctx) rq false [] =
          .ok (.original ⟨s.nextUuid, [], stv, some ctx, rq,
              latestPointer s ctx sender receiver, false⟩ sender receiver
              (normalizeContent c),
            { s with
              nextUuid := s.nextUuid + 1
              immutableStore := (.uuidKey s.nextUuid, .msgVal (.original
                ⟨s.nextUuid, [], stv, some ctx, rq,
                  latestPointer s ctx sender receiver, false⟩ sender receiver
                (normalizeContent c))) :: s.immutableStore
              mutableStore := (_generate_latest_message_in_chat_key ctx
                  [sender.uuid, receiver.uuid], .uuidVal s.nextUuid) ::
                s.mutableStore }) := by
        unfold create_next_message _create_message _register_message
          _register_merged_object register_immutable_object
          set_mutable_state latestPointer get_mutable_state
        simp [hff, MergedMessage.uuid, MergedMessage.core, MergedMessage.sender,
          MergedMessage.receiver, MergedMessage.parent_ctx_msg_uuid]
      refine ⟨by rw [ceq]; rfl, ?_⟩
      intro m s' heq
      rw [ceq] at heq
      rw [Except.ok.injEq, Prod.mk.injEq] at heq
      obtain ⟨hm, hs⟩ := heq
      subst hm
      subst hs
      simp [get_mutable_state, alistGet, MergedMessage.uuid, MergedMessage.core]

/-- Witness for the C10 theorem at a concrete input. -/
theorem latest_pointer_shared_between_directions_witness :
    Except.map (fun p => p.1.prev_msg_uuid)
        (create_next_message (scenState ⟨[], none⟩) (.plain (.str "m1")) (some false)
          (some scenUser) scenBot (some 2) none false []) =
      .ok (latestPointer (scenState ⟨[], none⟩) 2 scenUser scenBot) ∧
    ∀ m s', create_next_message (scenState ⟨[], none⟩) (.plain (.str "m1"))
        (some false) (some scenUser) scenBot (some 2) none false [] = .ok (m, s') →
      get_mutable_state s' (_generate_latest_message_in_chat_key 2
        [scenUser.uuid, scenBot.uuid]) = some (.uuidVal m.uuid) :=
  latest_pointer_shared_between_directions.2.1 (scenState ⟨[], none⟩)
    (.plain (.str "m1")) false scenUser scenBot 2 none rfl

end BotmergerModel
